import Mathlib

/-!
Verification development for the DesktopImage screenshot CLI
(src/index.js).  The JavaScript source is shallowly embedded:

* `Monitor`, `Timestamp` mirror the record shapes built by the source.
* `generateFilename`, `detectPlatform` embed the pure functions of the
  same names (src/index.js lines 52-82); the ambient clock read in
  `getTimestamp` is abstracted into an explicit `Timestamp` value.
* `winMonitors`, `xrandrMonitors`, `darwinMonitors` embed the three
  parsing branches of `getScreenInfo` (lines 163-224).  The external
  tool output is abstracted at the boundary of the platform tool: the
  input is the list of per-line numeric captures that the source
  extracts with `split(',').map(Number)` respectively the regex
  groups of `/(\S+) connected.*?(\d+)x(\d+)\+(\d+)\+(\d+)/`.
  The JavaScript `Array.prototype.sort` call with the comparator of
  lines 171-174 is modelled by `List.insertionSort` over the ordering
  relation that the comparator decides.
* `captureScreenWin` embeds the Windows-family branch of
  `captureScreen` (lines 231-399) as a function from the injected
  outcomes of the external steps (script execution success, output
  file existence) to an `Except` result plus a trace of filesystem
  and tool events.  Temporary names, unique per call in the source
  via a `Date.now()` suffix, are modelled by per-target names.
* `mainRun` embeds the orchestration of `main` (lines 415-516):
  display-number validation, `find` by index, the per-format
  convert-or-copy placement (`convertImage` success or failure is an
  injected outcome), the per-monitor try/catch loop, and the implicit
  exit code (0 when `main` returns normally, 1 when the top-level
  catch runs `process.exit(1)`).  Enumeration effects are modelled
  separately by `enumScriptTrace`; `mainRun` takes the enumeration
  result as a parameter.
-/

/-- One physical display, as built by `getScreenInfo`
(src/index.js lines 165-167, 191-197, 211-217). -/
structure Monitor where
  index : Nat
  x : Int
  y : Int
  width : Int
  height : Int
deriving DecidableEq, Repr

/-- The six components captured once by `getTimestamp`
(src/index.js lines 52-62). -/
structure Timestamp where
  year : Nat
  month : Nat
  day : Nat
  hours : Nat
  minutes : Nat
  seconds : Nat
deriving DecidableEq, Repr

/-- JavaScript `String(n).padStart(2, "0")` for a natural number
(src/index.js lines 55-59). -/
def padStart2 (s : String) : String :=
  if s.length < 2 then String.mk (List.replicate (2 - s.length) '0') ++ s else s

/-- Zero-pad the decimal rendering of a natural number to width two,
as `String(n).padStart(2, "0")` does. -/
def pad2 (n : Nat) : String := padStart2 (toString n)

/-- Embeds `generateFilename` (src/index.js lines 64-67). -/
def generateFilename (pre : String) (format : String) (ts : Timestamp) : String :=
  pre ++ "_" ++ toString ts.year ++ "-" ++ pad2 ts.month ++ "-" ++ pad2 ts.day ++
    "_" ++ pad2 ts.hours ++ "-" ++ pad2 ts.minutes ++ "-" ++ pad2 ts.seconds ++
    "." ++ format

/-- Embeds `detectPlatform` (src/index.js lines 69-82).  The
`fs.access` probe of `/mnt/c` is abstracted into the boolean
`mntCExists`; in the source its rejection is caught by the
try/catch, so the function is total and never throws. -/
def detectPlatform (osPlatform : String) (mntCExists : Bool) : String :=
  if osPlatform = "linux" then
    (if mntCExists then "wsl" else "linux")
  else osPlatform

/-- Comparator order of the monitor sort (src/index.js lines 171-174):
`a` may be placed before `b` exactly when the comparator returns a
non-positive number, i.e. lexicographic (y, x). -/
def leMon (a b : Monitor) : Prop :=
  a.y < b.y ∨ (a.y = b.y ∧ a.x ≤ b.x)

instance : DecidableRel leMon := fun a b => by
  unfold leMon; infer_instance

instance : IsTotal Monitor leMon := ⟨by
  intro a b; unfold leMon; omega⟩

instance : IsTrans Monitor leMon := ⟨by
  intro a b c; unfold leMon; omega⟩

/-- Re-assign `index` 1..N in order, embedding
`monitorList.forEach((m, i) => m.index = i + 1)` (src/index.js
line 177); the parameter `k` is the number of elements already
passed. -/
def reindexFrom (k : Nat) : List Monitor → List Monitor
  | [] => []
  | m :: ms => { m with index := k + 1 } :: reindexFrom (k + 1) ms

/-- Re-index a monitor list starting at 1. -/
def reindex (l : List Monitor) : List Monitor := reindexFrom 0 l

/-- Build the raw monitor records of the Windows-family branch
(src/index.js lines 165-167) from the per-line numeric tuples
`(x, y, width, height)`. -/
def monitorsFromTuples (tuples : List (Int × Int × Int × Int)) : List Monitor :=
  tuples.mapIdx fun i t => ⟨i + 1, t.1, t.2.1, t.2.2.1, t.2.2.2⟩

/-- Embeds the Windows-family result of `getScreenInfo`
(src/index.js lines 163-179): map to records, keep only positive
dimensions, sort by (y, x), re-index 1..N. -/
def winMonitors (tuples : List (Int × Int × Int × Int)) : List Monitor :=
  reindex (List.insertionSort leMon
    ((monitorsFromTuples tuples).filter fun m =>
      decide (0 < m.width) && decide (0 < m.height)))

/-- Embeds the native-Linux branch of `getScreenInfo`
(src/index.js lines 202-224).  Each tuple `(w, h, x, y)` holds the
digit captures of one xrandr line matching
`(\S+) connected.*?(\d+)x(\d+)\+(\d+)\+(\d+)`; `\d+` matches any
digit run, zero included, and the captures are naturals.  No filter,
sort, or re-index is applied on this path. -/
def xrandrMonitors (tuples : List (Nat × Nat × Nat × Nat)) : List Monitor :=
  tuples.mapIdx fun i t => ⟨i + 1, (t.2.2.1 : Int), (t.2.2.2 : Int), (t.1 : Int), (t.2.1 : Int)⟩

/-- Embeds the macOS branch of `getScreenInfo` (src/index.js lines
185-200).  Each entry is the parsed `"W x H"` resolution of one
display entry, `none` when the resolution string is absent (then the
defaults 1920 and 1080 apply).  Position is always (0, 0); no
filter is applied on this path. -/
def darwinMonitors (resolutions : List (Option (Nat × Nat))) : List Monitor :=
  resolutions.mapIdx fun i r =>
    match r with
    | some wh => ⟨i + 1, 0, 0, (wh.1 : Int), (wh.2 : Int)⟩
    | none => ⟨i + 1, 0, 0, 1920, 1080⟩

/-- Filesystem and external-tool events performed by the capture and
placement code, in program order.  `scriptWrite` and `tempWrite`
create a temporary file, `unlink` removes one, `exec` runs the
generated capture script (payload: the capture rectangle it encodes,
`none` for the full virtual desktop), `enumExec` runs the
enumeration script, `convert` invokes the Jimp codec, `copy` is
`fs.copyFile`, `outWrite` is the creation of a final output file,
and `log` is a console message. -/
inductive Event where
  | scriptWrite (f : String)
  | enumExec
  | exec (rect : Option (Int × Int × Int × Int))
  | tempWrite (f : String)
  | unlink (f : String)
  | convert (src dst : String)
  | copy (src dst : String)
  | outWrite (f : String)
  | log (msg : String)
deriving DecidableEq, Repr

/-- Temporary image name for one capture call (src/index.js lines
244-254); the `Date.now()` uniqueness of the source is modelled by
per-target names. -/
def tempName (t : Option Monitor) : String :=
  match t with
  | none => "screenshot_desktop.png"
  | some m => "screenshot_display" ++ toString m.index ++ ".png"

/-- Temporary script name for one capture call (src/index.js lines
261-282), modelled like `tempName`. -/
def scriptName (t : Option Monitor) : String :=
  match t with
  | none => "capture_desktop.ps1"
  | some m => "capture_display" ++ toString m.index ++ ".ps1"

/-- The rectangle encoded into the generated capture script for a
monitor (src/index.js lines 291-294): x and y clamped with
`Math.max(0, _)`, width and height unchanged. -/
def clampedRect (m : Monitor) : Int × Int × Int × Int :=
  (max 0 m.x, max 0 m.y, m.width, m.height)

/-- Script write, execution, cleanup and output check of
`captureScreen` (src/index.js lines 358-375) with the two external
outcomes injected: `execOk` is success of `execAsync`, `fileOk`
whether the tool produced the output file.  When `execAsync` throws
(line 364), control reaches the catch of line 396 directly, so the
`fs.unlink(psScript)` of line 372 does not run; when it succeeds,
the script is unlinked and then `fs.access(tempFile)` (line 374)
checks the output. -/
def captureExec (rect : Option (Int × Int × Int × Int)) (script temp : String)
    (execOk fileOk : Bool) : Except String String × List Event :=
  if execOk then
    if fileOk then
      (Except.ok temp,
        [Event.scriptWrite script, Event.exec rect, Event.tempWrite temp, Event.unlink script])
    else
      (Except.error "Failed to capture screen: ENOENT: no such file or directory",
        [Event.scriptWrite script, Event.exec rect, Event.unlink script])
  else
    (Except.error "Failed to capture screen: Command failed",
      [Event.scriptWrite script, Event.exec rect])

/-- Embeds the Windows-family branch of `captureScreen`
(src/index.js lines 231-399).  With a monitor of non-positive width
or height the explicit dimension check of lines 283-285 throws
before the script file is written and before any tool runs (empty
event trace); the message is wrapped by the catch of line 396. -/
def captureScreenWin (monitor : Option Monitor) (script temp : String)
    (execOk fileOk : Bool) : Except String String × List Event :=
  match monitor with
  | some m =>
    if m.width ≤ 0 ∨ m.height ≤ 0 then
      (Except.error ("Failed to capture screen: Invalid monitor dimensions: " ++
        toString m.width ++ "x" ++ toString m.height), [])
    else captureExec (some (clampedRect m)) script temp execOk fileOk
  | none => captureExec none script temp execOk fileOk

/-- Script handling of `getScreenInfo` (src/index.js lines 146-184):
the enumeration script is written, executed, and unlinked both on
the success path (line 157) and in the catch (line 182). -/
def enumScriptTrace (execOk : Bool) : List Event :=
  if execOk then
    [Event.scriptWrite "getmonitors.ps1", Event.enumExec, Event.unlink "getmonitors.ps1"]
  else
    [Event.scriptWrite "getmonitors.ps1", Event.enumExec, Event.unlink "getmonitors.ps1"]

/-- Format conversion and placement of one capture (src/index.js
lines 444-450, 462-468, 485-491): for png a direct `fs.copyFile`
then `fs.unlink` of the temp; otherwise `convertImage` (the Jimp
codec, lines 401-413) then `fs.unlink`.  When the codec throws, the
`await` propagates before the unlink runs, so the temp file is not
deleted on that path. -/
def placeOutput (format : String) (src dst : String) (convOk : Bool) :
    Except String Unit × List Event :=
  if format = "png" then
    (Except.ok (), [Event.copy src dst, Event.outWrite dst, Event.unlink src])
  else if convOk then
    (Except.ok (), [Event.convert src dst, Event.outWrite dst, Event.unlink src])
  else
    (Except.error "Failed to convert image: codec error", [Event.convert src dst])

/-- JavaScript number rendering used in the template literals of
`main`; integral values render without a fraction part.  The claims
about exact message text are stated for integral inputs only. -/
def jsNumberToString (d : ℚ) : String :=
  if d.den = 1 then toString d.num else toString d.num ++ "/" ++ toString d.den

/-- Output filename of the whole-desktop capture (src/index.js
line 460). -/
def desktopName (format : String) (ts : Timestamp) : String :=
  generateFilename "DesktopImage" format ts

/-- Output filename of one monitor capture (src/index.js lines
439-442, 480-483). -/
def displayName (m : Monitor) (format : String) (ts : Timestamp) : String :=
  generateFilename ("DisplayImage" ++ toString m.index) format ts

/-- One capture call of `main`, with the injected tool outcomes
keyed by the target monitor index (`none` for the whole desktop). -/
def captureTarget (capOk fileOk : Option Nat → Bool) (t : Option Monitor) :
    Except String String × List Event :=
  captureScreenWin t (scriptName t) (tempName t)
    (capOk (t.map Monitor.index)) (fileOk (t.map Monitor.index))

/-- One iteration of the all-displays loop (src/index.js lines
477-498): capture, convert-or-copy, and the surrounding try/catch
that logs a failure and continues. -/
def monStep (format : String) (ts : Timestamp) (capOk fileOk : Option Nat → Bool)
    (convOk : String → Bool) (m : Monitor) : List Event :=
  match captureTarget capOk fileOk (some m) with
  | (Except.error e, tr) =>
    tr ++ [Event.log ("✗ Failed to capture display " ++ toString m.index ++ ": " ++ e)]
  | (Except.ok tmp, tr) =>
    match placeOutput format tmp (displayName m format ts) (convOk (displayName m format ts)) with
    | (Except.ok _, ptr) =>
      tr ++ ptr ++ [Event.log ("✓ Display " ++ toString m.index ++
        " screenshot saved: " ++ displayName m format ts)]
    | (Except.error e, ptr) =>
      tr ++ ptr ++ [Event.log ("✗ Failed to capture display " ++ toString m.index ++ ": " ++ e)]

/-- The all-displays loop over the enumerated monitors (src/index.js
lines 477-498). -/
def loopMonitors (format : String) (ts : Timestamp) (capOk fileOk : Option Nat → Bool)
    (convOk : String → Bool) : List Monitor → List Event
  | [] => []
  | m :: ms =>
    monStep format ts capOk fileOk convOk m ++
      loopMonitors format ts capOk fileOk convOk ms

/-- Embeds the orchestration of `main` (src/index.js lines 415-516)
on the Windows-family capture path, returning the process exit code
and the event trace.  The enumeration result `monitors` is a
parameter (its own effects are `enumScriptTrace`).  Exit code 0 is
the implicit success exit; 1 is `process.exit(1)` from the display
validation (line 432) or the top-level catch (lines 506-509).  In
the single-display branch, when no enumerated monitor has an index
equal to the requested number, `monitors.find` yields `undefined`,
`captureScreen(undefined)` takes the default `monitor = null` and
performs a full virtual-desktop capture, and the subsequent
`monitor.index` template literal (line 441) throws a TypeError that
the top-level catch turns into exit code 1. -/
def mainRun (display : Option ℚ) (format : String) (monitors : List Monitor)
    (ts : Timestamp) (capOk fileOk : Option Nat → Bool) (convOk : String → Bool) :
    Nat × List Event :=
  match display with
  | some d =>
    if d < 1 ∨ (monitors.length : ℚ) < d then
      (1, [Event.log ("Error: Display " ++ jsNumberToString d ++
        " not found. Available displays: 1-" ++ toString monitors.length)])
    else
      match monitors.find? (fun m => decide ((m.index : ℚ) = d)) with
      | some m =>
        match captureTarget capOk fileOk (some m) with
        | (Except.error e, tr) =>
          (1, Event.log ("Capturing display " ++ jsNumberToString d ++ "...") ::
            tr ++ [Event.log ("Error: " ++ e)])
        | (Except.ok tmp, tr) =>
          match placeOutput format tmp (displayName m format ts)
              (convOk (displayName m format ts)) with
          | (Except.error e, ptr) =>
            (1, Event.log ("Capturing display " ++ jsNumberToString d ++ "...") ::
              tr ++ ptr ++ [Event.log ("Error: " ++ e)])
          | (Except.ok _, ptr) =>
            (0, Event.log ("Capturing display " ++ jsNumberToString d ++ "...") ::
              tr ++ ptr ++
              [Event.log ("✓ Display " ++ toString m.index ++ " screenshot saved: " ++
                displayName m format ts),
               Event.log "✓ All screenshots captured successfully!"])
      | none =>
        match captureTarget capOk fileOk none with
        | (Except.error e, tr) =>
          (1, Event.log ("Capturing display " ++ jsNumberToString d ++ "...") ::
            tr ++ [Event.log ("Error: " ++ e)])
        | (Except.ok _, tr) =>
          (1, Event.log ("Capturing display " ++ jsNumberToString d ++ "...") ::
            tr ++ [Event.log "Error: Cannot read properties of undefined (reading 'index')"])
  | none =>
    match captureTarget capOk fileOk none with
    | (Except.error e, tr) =>
      (1, Event.log "Capturing desktop screenshot..." :: tr ++ [Event.log ("Error: " ++ e)])
    | (Except.ok tmp, tr) =>
      match placeOutput format tmp (desktopName format ts) (convOk (desktopName format ts)) with
      | (Except.error e, ptr) =>
        (1, Event.log "Capturing desktop screenshot..." :: tr ++ ptr ++
          [Event.log ("Error: " ++ e)])
      | (Except.ok _, ptr) =>
        (0, Event.log "Capturing desktop screenshot..." :: tr ++ ptr ++
          [Event.log ("✓ Main desktop screenshot saved: " ++ desktopName format ts)] ++
          loopMonitors format ts capOk fileOk convOk monitors ++
          [Event.log "✓ All screenshots captured successfully!"])

/-- Final output files created in a trace. -/
def outputsOf : List Event → List String
  | [] => []
  | Event.outWrite f :: es => f :: outputsOf es
  | _ :: es => outputsOf es

/-- Codec invocations in a trace. -/
def convertsOf : List Event → List (String × String)
  | [] => []
  | Event.convert s d :: es => (s, d) :: convertsOf es
  | _ :: es => convertsOf es

/-- Direct file copies in a trace. -/
def copiesOf : List Event → List (String × String)
  | [] => []
  | Event.copy s d :: es => (s, d) :: copiesOf es
  | _ :: es => copiesOf es

/-- Capture-tool invocations in a trace. -/
def execsOf : List Event → List (Option (Int × Int × Int × Int))
  | [] => []
  | Event.exec r :: es => r :: execsOf es
  | _ :: es => execsOf es

/-- Temporary files brought into existence during a trace. -/
def createdTemps : List Event → List String
  | [] => []
  | Event.scriptWrite f :: es => f :: createdTemps es
  | Event.tempWrite f :: es => f :: createdTemps es
  | _ :: es => createdTemps es

/-- Files removed during a trace. -/
def deletedTemps : List Event → List String
  | [] => []
  | Event.unlink f :: es => f :: deletedTemps es
  | _ :: es => deletedTemps es

/-- Temporary files still present after the run: created but never
deleted. -/
def leakedTemps (tr : List Event) : List String :=
  (createdTemps tr).filter fun f => decide (¬ f ∈ deletedTemps tr)

/-- All the injected external outcomes that one monitor of the
all-displays loop needs for its output to be produced: script
execution succeeds, the tool wrote the file, the dimensions pass the
fail-fast check, and (for a non-png format) the codec succeeds. -/
def monSucceeds (format : String) (ts : Timestamp) (capOk fileOk : Option Nat → Bool)
    (convOk : String → Bool) (m : Monitor) : Prop :=
  capOk (some m.index) = true ∧ fileOk (some m.index) = true ∧
  0 < m.width ∧ 0 < m.height ∧
  (format = "png" ∨ convOk (displayName m format ts) = true)

example : pad2 7 = "07" := by decide

example : generateFilename "DesktopImage" "png" ⟨2024, 1, 20, 14, 30, 45⟩ =
    "DesktopImage_2024-01-20_14-30-45.png" := by decide

example : detectPlatform "linux" true = "wsl" := by decide

example : winMonitors [(1920, 0, 1920, 1080), (0, 0, 1920, 1080), (5, 5, 0, 7)] =
    [⟨1, 0, 0, 1920, 1080⟩, ⟨2, 1920, 0, 1920, 1080⟩] := by decide

example :
    leakedTemps (mainRun (some 1) "jpg" [⟨1, 0, 0, 100, 100⟩] ⟨2024, 1, 20, 14, 30, 45⟩
      (fun _ => true) (fun _ => true) (fun _ => false)).2 =
    ["screenshot_display1.png"] := by decide

/-! ## Helper lemmas -/

theorem length_reindexFrom (k : Nat) (l : List Monitor) :
    (reindexFrom k l).length = l.length := by
  induction l generalizing k with
  | nil => rfl
  | cons m ms ih => simp [reindexFrom, ih]

theorem length_reindex (l : List Monitor) : (reindex l).length = l.length :=
  length_reindexFrom 0 l

theorem get_reindexFrom (k : Nat) (l : List Monitor) (i : Nat) (h : i < (reindexFrom k l).length)
    (h' : i < l.length) :
    (reindexFrom k l).get ⟨i, h⟩ = { l.get ⟨i, h'⟩ with index := k + i + 1 } := by
  induction l generalizing k i with
  | nil => exact absurd h' (by simp)
  | cons m ms ih =>
    cases i with
    | zero => rfl
    | succ j =>
      have hj : j < (reindexFrom (k + 1) ms).length := by
        simpa [reindexFrom] using h
      have hj' : j < ms.length := by simpa using h'
      have := ih (k + 1) j hj hj'
      simpa [reindexFrom, List.get, Nat.add_comm, Nat.add_assoc, Nat.add_left_comm] using this

theorem mem_reindexFrom {k : Nat} {l : List Monitor} {m : Monitor}
    (h : m ∈ reindexFrom k l) :
    ∃ m0 ∈ l, m.x = m0.x ∧ m.y = m0.y ∧ m.width = m0.width ∧ m.height = m0.height := by
  induction l generalizing k with
  | nil => simp [reindexFrom] at h
  | cons a as ih =>
    rcases (by simpa [reindexFrom] using h : m = { a with index := k + 1 } ∨
        m ∈ reindexFrom (k + 1) as) with h1 | h1
    · exact ⟨a, by simp, by simp [h1]⟩
    · rcases ih h1 with ⟨m0, hm0, he⟩
      exact ⟨m0, by simp [hm0], he⟩

/-! ## Claim theorems: platform detection, capture validation, enumeration -/

/-- Claim C9: platform detection is a total function (the mount-point
probe rejection is caught, so it never throws); on the Linux OS
family it reports the nested platform exactly when the bridge mount
point is present and native Linux when it is absent, and any other
OS family string is returned unchanged. -/
theorem c9_detect_platform (osPlatform : String) (mntCExists : Bool) :
    (osPlatform = "linux" →
      detectPlatform osPlatform mntCExists = (if mntCExists then "wsl" else "linux")) ∧
    (osPlatform ≠ "linux" → detectPlatform osPlatform mntCExists = osPlatform) := by
  by_cases hl : osPlatform = "linux" <;> simp [detectPlatform, hl]

/-- Witness for C9 at the concrete OS families. -/
theorem c9_detect_platform_witness :
    detectPlatform "linux" true = "wsl" ∧
    detectPlatform "linux" false = "linux" ∧
    detectPlatform "win32" true = "win32" := by
  refine ⟨?_, ?_, ?_⟩
  · simpa using (c9_detect_platform "linux" true).1 rfl
  · simpa using (c9_detect_platform "linux" false).1 rfl
  · exact (c9_detect_platform "win32" true).2 (by decide)

/-- Claim C6: on the Windows family, capture of a monitor with
non-positive width or height fails with the explicit invalid-monitor-
dimensions error and an empty effect trace — before the script file
is written and before any external tool runs — while for a valid
monitor every tool invocation captures the rectangle with x and y
clamped to be non-negative and width and height unchanged. -/
theorem c6_capture_validation (m : Monitor) (script temp : String) (execOk fileOk : Bool) :
    (m.width ≤ 0 ∨ m.height ≤ 0 →
      captureScreenWin (some m) script temp execOk fileOk =
        (Except.error ("Failed to capture screen: Invalid monitor dimensions: " ++
          toString m.width ++ "x" ++ toString m.height), [])) ∧
    (0 < m.width → 0 < m.height →
      ∀ r ∈ execsOf (captureScreenWin (some m) script temp execOk fileOk).2,
        r = some (max 0 m.x, max 0 m.y, m.width, m.height)) := by
  constructor
  · intro hbad
    simp [captureScreenWin, if_pos hbad]
  · intro hw hh r hr
    have hgood : ¬(m.width ≤ 0 ∨ m.height ≤ 0) := by omega
    rw [captureScreenWin] at hr
    rw [if_neg hgood] at hr
    cases execOk <;> cases fileOk <;>
      simp [captureExec, execsOf, clampedRect] at hr <;> simp [hr, clampedRect]

/-- Witness for C6 at concrete monitors. -/
theorem c6_capture_validation_witness :
    captureScreenWin (some ⟨1, 3, 4, 0, 10⟩) "s.ps1" "t.png" true true =
      (Except.error "Failed to capture screen: Invalid monitor dimensions: 0x10", []) ∧
    some ((0 : Int), (4 : Int), (20 : Int), (10 : Int)) =
      some (max 0 (-7 : Int), max 0 (4 : Int), (20 : Int), (10 : Int)) := by
  constructor
  · simpa using (c6_capture_validation ⟨1, 3, 4, 0, 10⟩ "s.ps1" "t.png" true true).1
      (by decide)
  · exact ((c6_capture_validation ⟨1, -7, 4, 20, 10⟩ "s.ps1" "t.png" true true).2
      (by decide) (by decide) (some ((0 : Int), (4 : Int), (20 : Int), (10 : Int)))
      (by decide)).symm

/-- Claim C4 counterexample: the native-Linux enumeration branch
applies no dimension filter, so an xrandr line whose matched width
capture is the digit run 0 — for example a line reading
"HDMI-1 connected 0x768+0+0" — yields a Monitor with width 0 in the
returned list, violating the claimed all-platform invariant. -/
theorem c4_counterexample :
    ∃ m ∈ xrandrMonitors [(0, 768, 0, 0)], ¬(0 < m.width ∧ 0 < m.height) := by
  decide

/-- Claim C4, amended: on the Windows family the enumeration filter
drops every entry with non-positive width or height, so the
Windows-family result never contains such a Monitor; the macOS and
native-Linux branches apply no such filter. -/
theorem c4_amended (tuples : List (Int × Int × Int × Int)) :
    ∀ m ∈ winMonitors tuples, 0 < m.width ∧ 0 < m.height := by
  intro m hm
  rcases mem_reindexFrom hm with ⟨m0, hm0, _, _, hw, hh⟩
  have hmem : m0 ∈ (monitorsFromTuples tuples).filter
      (fun m => decide (0 < m.width) && decide (0 < m.height)) :=
    ((List.perm_insertionSort leMon _).mem_iff).mp hm0
  have := List.of_mem_filter hmem
  simp only [Bool.and_eq_true, decide_eq_true_eq] at this
  exact ⟨hw ▸ this.1, hh ▸ this.2⟩

/-- Witness for C4 amended at a concrete tuple list. -/
theorem c4_amended_witness :
    0 < (Monitor.mk 1 (-1) 2 30 40).width ∧ 0 < (Monitor.mk 1 (-1) 2 30 40).height :=
  c4_amended [(-1, 2, 30, 40)] ⟨1, -1, 2, 30, 40⟩ (by decide)

/-! ## Trace helper lemmas -/

theorem outputsOf_append (a b : List Event) :
    outputsOf (a ++ b) = outputsOf a ++ outputsOf b := by
  induction a with
  | nil => simp [outputsOf]
  | cons e es ih => cases e <;> simp [outputsOf, ih]

theorem convertsOf_append (a b : List Event) :
    convertsOf (a ++ b) = convertsOf a ++ convertsOf b := by
  induction a with
  | nil => simp [convertsOf]
  | cons e es ih => cases e <;> simp [convertsOf, ih]

theorem copiesOf_append (a b : List Event) :
    copiesOf (a ++ b) = copiesOf a ++ copiesOf b := by
  induction a with
  | nil => simp [copiesOf]
  | cons e es ih => cases e <;> simp [copiesOf, ih]

theorem execsOf_append (a b : List Event) :
    execsOf (a ++ b) = execsOf a ++ execsOf b := by
  induction a with
  | nil => simp [execsOf]
  | cons e es ih => cases e <;> simp [execsOf, ih]

theorem createdTemps_append (a b : List Event) :
    createdTemps (a ++ b) = createdTemps a ++ createdTemps b := by
  induction a with
  | nil => simp [createdTemps]
  | cons e es ih => cases e <;> simp [createdTemps, ih]

theorem deletedTemps_append (a b : List Event) :
    deletedTemps (a ++ b) = deletedTemps a ++ deletedTemps b := by
  induction a with
  | nil => simp [deletedTemps]
  | cons e es ih => cases e <;> simp [deletedTemps, ih]

theorem outputsOf_captureScreenWin (t : Option Monitor) (s f : String) (a b : Bool) :
    outputsOf (captureScreenWin t s f a b).2 = [] := by
  cases t with
  | none => cases a <;> cases b <;> simp [captureScreenWin, captureExec, outputsOf]
  | some m =>
    by_cases hd : m.width ≤ 0 ∨ m.height ≤ 0
    · simp [captureScreenWin, if_pos hd, outputsOf]
    · cases a <;> cases b <;>
        simp [captureScreenWin, if_neg hd, captureExec, outputsOf]

theorem convertsOf_captureScreenWin (t : Option Monitor) (s f : String) (a b : Bool) :
    convertsOf (captureScreenWin t s f a b).2 = [] := by
  cases t with
  | none => cases a <;> cases b <;> simp [captureScreenWin, captureExec, convertsOf]
  | some m =>
    by_cases hd : m.width ≤ 0 ∨ m.height ≤ 0
    · simp [captureScreenWin, if_pos hd, convertsOf]
    · cases a <;> cases b <;>
        simp [captureScreenWin, if_neg hd, captureExec, convertsOf]

theorem copiesOf_captureScreenWin (t : Option Monitor) (s f : String) (a b : Bool) :
    copiesOf (captureScreenWin t s f a b).2 = [] := by
  cases t with
  | none => cases a <;> cases b <;> simp [captureScreenWin, captureExec, copiesOf]
  | some m =>
    by_cases hd : m.width ≤ 0 ∨ m.height ≤ 0
    · simp [captureScreenWin, if_pos hd, copiesOf]
    · cases a <;> cases b <;>
        simp [captureScreenWin, if_neg hd, captureExec, copiesOf]

theorem outputsOf_captureTarget (capOk fileOk : Option Nat → Bool) (t : Option Monitor) :
    outputsOf (captureTarget capOk fileOk t).2 = [] := by
  simpa [captureTarget] using
    outputsOf_captureScreenWin t (scriptName t) (tempName t) _ _

theorem convertsOf_captureTarget (capOk fileOk : Option Nat → Bool) (t : Option Monitor) :
    convertsOf (captureTarget capOk fileOk t).2 = [] := by
  simpa [captureTarget] using
    convertsOf_captureScreenWin t (scriptName t) (tempName t) _ _

theorem copiesOf_captureTarget (capOk fileOk : Option Nat → Bool) (t : Option Monitor) :
    copiesOf (captureTarget capOk fileOk t).2 = [] := by
  simpa [captureTarget] using
    copiesOf_captureScreenWin t (scriptName t) (tempName t) _ _

theorem captureTarget_ok (capOk fileOk : Option Nat → Bool) (t : Option Monitor)
    (h1 : capOk (t.map Monitor.index) = true) (h2 : fileOk (t.map Monitor.index) = true)
    (hd : ∀ m, t = some m → 0 < m.width ∧ 0 < m.height) :
    captureTarget capOk fileOk t =
      (Except.ok (tempName t),
        [Event.scriptWrite (scriptName t), Event.exec (t.map clampedRect),
         Event.tempWrite (tempName t), Event.unlink (scriptName t)]) := by
  cases t with
  | none =>
    simp only [Option.map_none'] at h1 h2
    simp [captureTarget, captureScreenWin, captureExec, h1, h2]
  | some m =>
    simp only [Option.map_some'] at h1 h2
    have hdm := hd m rfl
    have hgood : ¬(m.width ≤ 0 ∨ m.height ≤ 0) := by omega
    simp [captureTarget, captureScreenWin, if_neg hgood, captureExec, h1, h2]

theorem placeOutput_png (src dst : String) (c : Bool) :
    placeOutput "png" src dst c =
      (Except.ok (), [Event.copy src dst, Event.outWrite dst, Event.unlink src]) := by
  simp [placeOutput]

theorem placeOutput_conv_ok (format src dst : String) (hf : format ≠ "png") :
    placeOutput format src dst true =
      (Except.ok (), [Event.convert src dst, Event.outWrite dst, Event.unlink src]) := by
  simp [placeOutput, hf]

theorem placeOutput_conv_fail (format src dst : String) (hf : format ≠ "png") :
    placeOutput format src dst false =
      (Except.error "Failed to convert image: codec error", [Event.convert src dst]) := by
  simp [placeOutput, hf]

theorem outputsOf_placeOutput (format src dst : String) (c : Bool) :
    ∀ f ∈ outputsOf (placeOutput format src dst c).2, f = dst := by
  by_cases hf : format = "png"
  · subst hf; simp [placeOutput_png, outputsOf]
  · cases c
    · simp [placeOutput_conv_fail format src dst hf, outputsOf]
    · simp [placeOutput_conv_ok format src dst hf, outputsOf]

theorem captureTarget_err_dims (capOk fileOk : Option Nat → Bool) (m : Monitor)
    (hd : m.width ≤ 0 ∨ m.height ≤ 0) :
    captureTarget capOk fileOk (some m) =
      (Except.error ("Failed to capture screen: Invalid monitor dimensions: " ++
        toString m.width ++ "x" ++ toString m.height), []) := by
  simp [captureTarget, captureScreenWin, if_pos hd]

theorem captureTarget_err_exec (capOk fileOk : Option Nat → Bool) (t : Option Monitor)
    (h1 : capOk (t.map Monitor.index) = false)
    (hd : ∀ m, t = some m → 0 < m.width ∧ 0 < m.height) :
    captureTarget capOk fileOk t =
      (Except.error "Failed to capture screen: Command failed",
        [Event.scriptWrite (scriptName t), Event.exec (t.map clampedRect)]) := by
  cases t with
  | none =>
    simp only [Option.map_none'] at h1
    simp [captureTarget, captureScreenWin, captureExec, h1]
  | some m =>
    simp only [Option.map_some'] at h1
    have hdm := hd m rfl
    have hgood : ¬(m.width ≤ 0 ∨ m.height ≤ 0) := by omega
    simp [captureTarget, captureScreenWin, if_neg hgood, captureExec, h1]

theorem captureTarget_err_file (capOk fileOk : Option Nat → Bool) (t : Option Monitor)
    (h1 : capOk (t.map Monitor.index) = true)
    (h2 : fileOk (t.map Monitor.index) = false)
    (hd : ∀ m, t = some m → 0 < m.width ∧ 0 < m.height) :
    captureTarget capOk fileOk t =
      (Except.error "Failed to capture screen: ENOENT: no such file or directory",
        [Event.scriptWrite (scriptName t), Event.exec (t.map clampedRect),
         Event.unlink (scriptName t)]) := by
  cases t with
  | none =>
    simp only [Option.map_none'] at h1 h2
    simp [captureTarget, captureScreenWin, captureExec, h1, h2]
  | some m =>
    simp only [Option.map_some'] at h1 h2
    have hdm := hd m rfl
    have hgood : ¬(m.width ≤ 0 ∨ m.height ≤ 0) := by omega
    simp [captureTarget, captureScreenWin, if_neg hgood, captureExec, h1, h2]

theorem monStep_ok (format : String) (ts : Timestamp) (capOk fileOk : Option Nat → Bool)
    (convOk : String → Bool) (m : Monitor)
    (h1 : capOk (some m.index) = true) (h2 : fileOk (some m.index) = true)
    (hw : 0 < m.width) (hh : 0 < m.height)
    (hc : format = "png" ∨ convOk (displayName m format ts) = true) :
    monStep format ts capOk fileOk convOk m =
      [Event.scriptWrite (scriptName (some m)), Event.exec (some (clampedRect m)),
       Event.tempWrite (tempName (some m)), Event.unlink (scriptName (some m))] ++
      (if format = "png" then
        [Event.copy (tempName (some m)) (displayName m format ts),
         Event.outWrite (displayName m format ts), Event.unlink (tempName (some m))]
      else
        [Event.convert (tempName (some m)) (displayName m format ts),
         Event.outWrite (displayName m format ts), Event.unlink (tempName (some m))]) ++
      [Event.log ("✓ Display " ++ toString m.index ++ " screenshot saved: " ++
        displayName m format ts)] := by
  have hgood : ¬(m.width ≤ 0 ∨ m.height ≤ 0) := by omega
  by_cases hf : format = "png"
  · subst hf
    simp [monStep, captureTarget, captureScreenWin, if_neg hgood, captureExec,
      h1, h2, placeOutput]
  · have hcv : convOk (displayName m format ts) = true := hc.resolve_left hf
    simp [monStep, captureTarget, captureScreenWin, if_neg hgood, captureExec,
      h1, h2, hcv, placeOutput, hf]

theorem monStep_out_mem (format : String) (ts : Timestamp) (capOk fileOk : Option Nat → Bool)
    (convOk : String → Bool) (m : Monitor)
    (hs : monSucceeds format ts capOk fileOk convOk m) :
    displayName m format ts ∈ outputsOf (monStep format ts capOk fileOk convOk m) := by
  obtain ⟨h1, h2, hw, hh, hc⟩ := hs
  rw [monStep_ok format ts capOk fileOk convOk m h1 h2 hw hh hc]
  by_cases hf : format = "png" <;>
    simp [hf, outputsOf]

theorem monStep_fail_log (format : String) (ts : Timestamp) (capOk fileOk : Option Nat → Bool)
    (convOk : String → Bool) (m : Monitor)
    (hs : ¬ monSucceeds format ts capOk fileOk convOk m) :
    ∃ e, Event.log ("✗ Failed to capture display " ++ toString m.index ++ ": " ++ e) ∈
      monStep format ts capOk fileOk convOk m := by
  by_cases hd : m.width ≤ 0 ∨ m.height ≤ 0
  · refine ⟨"Failed to capture screen: Invalid monitor dimensions: " ++
      toString m.width ++ "x" ++ toString m.height, ?_⟩
    simp [monStep, captureTarget, captureScreenWin, if_pos hd]
  · have hw : 0 < m.width := by omega
    have hh : 0 < m.height := by omega
    cases hcap : capOk (some m.index) with
    | false =>
      refine ⟨"Failed to capture screen: Command failed", ?_⟩
      simp [monStep, captureTarget, captureScreenWin, if_neg hd, captureExec, hcap]
    | true =>
      cases hfile : fileOk (some m.index) with
      | false =>
        refine ⟨"Failed to capture screen: ENOENT: no such file or directory", ?_⟩
        simp [monStep, captureTarget, captureScreenWin, if_neg hd, captureExec, hcap, hfile]
      | true =>
        have hf : format ≠ "png" ∧ convOk (displayName m format ts) = false := by
          by_cases hp : format = "png"
          · exact absurd ⟨hcap, hfile, hw, hh, Or.inl hp⟩ hs
          · cases hcv : convOk (displayName m format ts) with
            | false => exact ⟨hp, rfl⟩
            | true => exact absurd ⟨hcap, hfile, hw, hh, Or.inr hcv⟩ hs
        refine ⟨"Failed to convert image: codec error", ?_⟩
        simp [monStep, captureTarget, captureScreenWin, if_neg hd, captureExec,
          hcap, hfile, hf.2, placeOutput, hf.1]

theorem outputs_monStep_sub (format : String) (ts : Timestamp)
    (capOk fileOk : Option Nat → Bool) (convOk : String → Bool) (m : Monitor) :
    ∀ f ∈ outputsOf (monStep format ts capOk fileOk convOk m),
      f = displayName m format ts := by
  intro f hf
  by_cases hd : m.width ≤ 0 ∨ m.height ≤ 0
  · simp [monStep, captureTarget, captureScreenWin, if_pos hd, outputsOf] at hf
  · cases hcap : capOk (some m.index) <;> cases hfile : fileOk (some m.index) <;>
      by_cases hfmt : format = "png" <;>
      cases hcv : convOk (displayName m format ts) <;>
      simp [monStep, captureTarget, captureScreenWin, if_neg hd, captureExec,
        hcap, hfile, hfmt, hcv, placeOutput, outputsOf] at hf <;>
      simp [hf, hfmt]

theorem convertsOf_monStep_png (ts : Timestamp) (capOk fileOk : Option Nat → Bool)
    (convOk : String → Bool) (m : Monitor) :
    convertsOf (monStep "png" ts capOk fileOk convOk m) = [] := by
  by_cases hd : m.width ≤ 0 ∨ m.height ≤ 0
  · simp [monStep, captureTarget, captureScreenWin, if_pos hd, convertsOf]
  · cases hcap : capOk (some m.index) <;> cases hfile : fileOk (some m.index) <;>
      simp [monStep, captureTarget, captureScreenWin, if_neg hd, captureExec,
        hcap, hfile, placeOutput, convertsOf]

theorem copiesOf_monStep_nonpng (format : String) (ts : Timestamp)
    (capOk fileOk : Option Nat → Bool) (convOk : String → Bool) (m : Monitor)
    (hfmt : format ≠ "png") :
    copiesOf (monStep format ts capOk fileOk convOk m) = [] := by
  by_cases hd : m.width ≤ 0 ∨ m.height ≤ 0
  · simp [monStep, captureTarget, captureScreenWin, if_pos hd, copiesOf]
  · cases hcap : capOk (some m.index) <;> cases hfile : fileOk (some m.index) <;>
      cases hcv : convOk (displayName m format ts) <;>
      simp [monStep, captureTarget, captureScreenWin, if_neg hd, captureExec,
        hcap, hfile, hcv, placeOutput, hfmt, copiesOf]

theorem out_has_copy_monStep (ts : Timestamp) (capOk fileOk : Option Nat → Bool)
    (convOk : String → Bool) (m : Monitor) :
    ∀ f ∈ outputsOf (monStep "png" ts capOk fileOk convOk m),
      ∃ s, (s, f) ∈ copiesOf (monStep "png" ts capOk fileOk convOk m) := by
  intro f hf
  by_cases hd : m.width ≤ 0 ∨ m.height ≤ 0
  · simp [monStep, captureTarget, captureScreenWin, if_pos hd, outputsOf] at hf
  · cases hcap : capOk (some m.index) <;> cases hfile : fileOk (some m.index) <;>
      simp [monStep, captureTarget, captureScreenWin, if_neg hd, captureExec,
        hcap, hfile, placeOutput, outputsOf, copiesOf] at hf ⊢
    simp [hf]

theorem out_has_convert_monStep (format : String) (ts : Timestamp)
    (capOk fileOk : Option Nat → Bool) (convOk : String → Bool) (m : Monitor)
    (hfmt : format ≠ "png") :
    ∀ f ∈ outputsOf (monStep format ts capOk fileOk convOk m),
      ∃ s, (s, f) ∈ convertsOf (monStep format ts capOk fileOk convOk m) := by
  intro f hf
  by_cases hd : m.width ≤ 0 ∨ m.height ≤ 0
  · simp [monStep, captureTarget, captureScreenWin, if_pos hd, outputsOf] at hf
  · cases hcap : capOk (some m.index) <;> cases hfile : fileOk (some m.index) <;>
      cases hcv : convOk (displayName m format ts) <;>
      simp [monStep, captureTarget, captureScreenWin, if_neg hd, captureExec,
        hcap, hfile, hcv, placeOutput, hfmt, outputsOf, convertsOf] at hf ⊢
    simp [hf]

theorem convert_invoked_monStep (format : String) (ts : Timestamp)
    (capOk fileOk : Option Nat → Bool) (convOk : String → Bool) (m : Monitor)
    (hfmt : format ≠ "png") (hcap : capOk (some m.index) = true)
    (hfile : fileOk (some m.index) = true) (hw : 0 < m.width) (hh : 0 < m.height) :
    (tempName (some m), displayName m format ts) ∈
      convertsOf (monStep format ts capOk fileOk convOk m) := by
  have hd : ¬(m.width ≤ 0 ∨ m.height ≤ 0) := by omega
  cases hcv : convOk (displayName m format ts) <;>
    simp [monStep, captureTarget, captureScreenWin, if_neg hd, captureExec,
      hcap, hfile, hcv, placeOutput, hfmt, convertsOf]

theorem created_sub_deleted_monStep (format : String) (ts : Timestamp)
    (capOk fileOk : Option Nat → Bool) (convOk : String → Bool) (m : Monitor)
    (hcap : capOk (some m.index) = true) (hfile : fileOk (some m.index) = true)
    (hcv : format = "png" ∨ convOk (displayName m format ts) = true) :
    ∀ f ∈ createdTemps (monStep format ts capOk fileOk convOk m),
      f ∈ deletedTemps (monStep format ts capOk fileOk convOk m) := by
  intro f hf
  by_cases hd : m.width ≤ 0 ∨ m.height ≤ 0
  · simp [monStep, captureTarget, captureScreenWin, if_pos hd, createdTemps] at hf
  · by_cases hfmt : format = "png"
    · simp [monStep, captureTarget, captureScreenWin, if_neg hd, captureExec,
        hcap, hfile, placeOutput, hfmt, createdTemps, deletedTemps] at hf ⊢
      rcases hf with hf | hf <;> simp [hf]
    · have hcc : convOk (displayName m format ts) = true := hcv.resolve_left hfmt
      simp [monStep, captureTarget, captureScreenWin, if_neg hd, captureExec,
        hcap, hfile, hcc, placeOutput, hfmt, createdTemps, deletedTemps] at hf ⊢
      rcases hf with hf | hf <;> simp [hf]

theorem loop_out_mem (format : String) (ts : Timestamp) (capOk fileOk : Option Nat → Bool)
    (convOk : String → Bool) (ms : List Monitor) :
    ∀ m ∈ ms, monSucceeds format ts capOk fileOk convOk m →
      displayName m format ts ∈ outputsOf (loopMonitors format ts capOk fileOk convOk ms) := by
  induction ms with
  | nil => simp
  | cons a as ih =>
    intro m hm hs
    rcases List.mem_cons.mp hm with rfl | hm
    · simp only [loopMonitors, outputsOf_append, List.mem_append]
      exact Or.inl (monStep_out_mem format ts capOk fileOk convOk m hs)
    · simp only [loopMonitors, outputsOf_append, List.mem_append]
      exact Or.inr (ih m hm hs)

theorem loop_fail_log (format : String) (ts : Timestamp) (capOk fileOk : Option Nat → Bool)
    (convOk : String → Bool) (ms : List Monitor) :
    ∀ m ∈ ms, ¬ monSucceeds format ts capOk fileOk convOk m →
      ∃ e, Event.log ("✗ Failed to capture display " ++ toString m.index ++ ": " ++ e) ∈
        loopMonitors format ts capOk fileOk convOk ms := by
  induction ms with
  | nil => simp
  | cons a as ih =>
    intro m hm hs
    rcases List.mem_cons.mp hm with rfl | hm
    · obtain ⟨e, he⟩ := monStep_fail_log format ts capOk fileOk convOk m hs
      exact ⟨e, by simp only [loopMonitors, List.mem_append]; exact Or.inl he⟩
    · obtain ⟨e, he⟩ := ih m hm hs
      exact ⟨e, by simp only [loopMonitors, List.mem_append]; exact Or.inr he⟩

theorem outputs_loop_sub (format : String) (ts : Timestamp) (capOk fileOk : Option Nat → Bool)
    (convOk : String → Bool) (ms : List Monitor) :
    ∀ f ∈ outputsOf (loopMonitors format ts capOk fileOk convOk ms),
      ∃ m ∈ ms, f = displayName m format ts := by
  induction ms with
  | nil => simp [loopMonitors, outputsOf]
  | cons a as ih =>
    intro f hf
    simp only [loopMonitors, outputsOf_append, List.mem_append] at hf
    rcases hf with hf | hf
    · exact ⟨a, by simp, outputs_monStep_sub format ts capOk fileOk convOk a f hf⟩
    · obtain ⟨m, hm, he⟩ := ih f hf
      exact ⟨m, by simp [hm], he⟩

theorem convertsOf_loop_png (ts : Timestamp) (capOk fileOk : Option Nat → Bool)
    (convOk : String → Bool) (ms : List Monitor) :
    convertsOf (loopMonitors "png" ts capOk fileOk convOk ms) = [] := by
  induction ms with
  | nil => simp [loopMonitors, convertsOf]
  | cons a as ih =>
    simp [loopMonitors, convertsOf_append, ih, convertsOf_monStep_png]

theorem copiesOf_loop_nonpng (format : String) (ts : Timestamp)
    (capOk fileOk : Option Nat → Bool) (convOk : String → Bool) (ms : List Monitor)
    (hfmt : format ≠ "png") :
    copiesOf (loopMonitors format ts capOk fileOk convOk ms) = [] := by
  induction ms with
  | nil => simp [loopMonitors, copiesOf]
  | cons a as ih =>
    simp [loopMonitors, copiesOf_append, ih, copiesOf_monStep_nonpng _ _ _ _ _ _ hfmt]

theorem out_has_copy_loop (ts : Timestamp) (capOk fileOk : Option Nat → Bool)
    (convOk : String → Bool) (ms : List Monitor) :
    ∀ f ∈ outputsOf (loopMonitors "png" ts capOk fileOk convOk ms),
      ∃ s, (s, f) ∈ copiesOf (loopMonitors "png" ts capOk fileOk convOk ms) := by
  induction ms with
  | nil => simp [loopMonitors, outputsOf]
  | cons a as ih =>
    intro f hf
    simp only [loopMonitors, outputsOf_append, List.mem_append] at hf
    rcases hf with hf | hf
    · obtain ⟨s, hs⟩ := out_has_copy_monStep ts capOk fileOk convOk a f hf
      exact ⟨s, by simp only [loopMonitors, copiesOf_append, List.mem_append]; exact Or.inl hs⟩
    · obtain ⟨s, hs⟩ := ih f hf
      exact ⟨s, by simp only [loopMonitors, copiesOf_append, List.mem_append]; exact Or.inr hs⟩

theorem out_has_convert_loop (format : String) (ts : Timestamp)
    (capOk fileOk : Option Nat → Bool) (convOk : String → Bool) (ms : List Monitor)
    (hfmt : format ≠ "png") :
    ∀ f ∈ outputsOf (loopMonitors format ts capOk fileOk convOk ms),
      ∃ s, (s, f) ∈ convertsOf (loopMonitors format ts capOk fileOk convOk ms) := by
  induction ms with
  | nil => simp [loopMonitors, outputsOf]
  | cons a as ih =>
    intro f hf
    simp only [loopMonitors, outputsOf_append, List.mem_append] at hf
    rcases hf with hf | hf
    · obtain ⟨s, hs⟩ := out_has_convert_monStep format ts capOk fileOk convOk a hfmt f hf
      exact ⟨s, by simp only [loopMonitors, convertsOf_append, List.mem_append]; exact Or.inl hs⟩
    · obtain ⟨s, hs⟩ := ih f hf
      exact ⟨s, by simp only [loopMonitors, convertsOf_append, List.mem_append]; exact Or.inr hs⟩

theorem convert_invoked_loop (format : String) (ts : Timestamp)
    (capOk fileOk : Option Nat → Bool) (convOk : String → Bool) (ms : List Monitor)
    (hfmt : format ≠ "png") :
    ∀ m ∈ ms, capOk (some m.index) = true → fileOk (some m.index) = true →
      0 < m.width → 0 < m.height →
      (tempName (some m), displayName m format ts) ∈
        convertsOf (loopMonitors format ts capOk fileOk convOk ms) := by
  induction ms with
  | nil => simp
  | cons a as ih =>
    intro m hm hcap hfile hw hh
    rcases List.mem_cons.mp hm with rfl | hm
    · simp only [loopMonitors, convertsOf_append, List.mem_append]
      exact Or.inl (convert_invoked_monStep format ts capOk fileOk convOk m hfmt hcap hfile hw hh)
    · simp only [loopMonitors, convertsOf_append, List.mem_append]
      exact Or.inr (ih m hm hcap hfile hw hh)

theorem created_sub_deleted_loop (format : String) (ts : Timestamp)
    (capOk fileOk : Option Nat → Bool) (convOk : String → Bool) (ms : List Monitor)
    (hcap : ∀ t, capOk t = true) (hfile : ∀ t, fileOk t = true)
    (hcv : ∀ s, convOk s = true) :
    ∀ f ∈ createdTemps (loopMonitors format ts capOk fileOk convOk ms),
      f ∈ deletedTemps (loopMonitors format ts capOk fileOk convOk ms) := by
  induction ms with
  | nil => simp [loopMonitors, createdTemps]
  | cons a as ih =>
    intro f hf
    simp only [loopMonitors, createdTemps_append, deletedTemps_append, List.mem_append] at hf ⊢
    rcases hf with hf | hf
    · exact Or.inl (created_sub_deleted_monStep format ts capOk fileOk convOk a
        (hcap _) (hfile _) (Or.inr (hcv _)) f hf)
    · exact Or.inr (ih f hf)

/-! ## Claim theorems about the orchestrator -/

/-- Claim C3: a requested display number outside the range 1..count
makes the invocation exit with code 1, print exactly the message
"Error: Display N not found. Available displays: 1-count", and
produce zero output files — the whole trace is that single message,
so no capture work happens before the failure. -/
theorem c3_display_out_of_range (n : ℤ) (format : String) (monitors : List Monitor)
    (ts : Timestamp) (capOk fileOk : Option Nat → Bool) (convOk : String → Bool)
    (h : n < 1 ∨ (monitors.length : ℤ) < n) :
    mainRun (some (n : ℚ)) format monitors ts capOk fileOk convOk =
      (1, [Event.log ("Error: Display " ++ toString n ++
        " not found. Available displays: 1-" ++ toString monitors.length)]) ∧
    outputsOf (mainRun (some (n : ℚ)) format monitors ts capOk fileOk convOk).2 = [] ∧
    execsOf (mainRun (some (n : ℚ)) format monitors ts capOk fileOk convOk).2 = [] := by
  have hcond : ((n : ℚ) < 1 ∨ (monitors.length : ℚ) < (n : ℚ)) := by
    rcases h with h | h
    · exact Or.inl (by exact_mod_cast h)
    · exact Or.inr (by exact_mod_cast h)
  have hjs : jsNumberToString (n : ℚ) = toString n := by
    simp [jsNumberToString, Rat.den_intCast, Rat.num_intCast]
  refine ⟨?_, ?_, ?_⟩
  · simp [mainRun, if_pos hcond, hjs]
  · simp [mainRun, if_pos hcond, outputsOf]
  · simp [mainRun, if_pos hcond, execsOf]

/-- Witness for C3: display 5 with 3 enumerated monitors. -/
theorem c3_display_out_of_range_witness :
    mainRun (some ((5 : ℤ) : ℚ)) "png"
      [⟨1, 0, 0, 10, 10⟩, ⟨2, 10, 0, 10, 10⟩, ⟨3, 20, 0, 10, 10⟩]
      ⟨2024, 1, 20, 14, 30, 45⟩ (fun _ => true) (fun _ => true) (fun _ => true) =
      (1, [Event.log "Error: Display 5 not found. Available displays: 1-3"]) := by
  have h := c3_display_out_of_range 5 "png"
    [⟨1, 0, 0, 10, 10⟩, ⟨2, 10, 0, 10, 10⟩, ⟨3, 20, 0, 10, 10⟩]
    ⟨2024, 1, 20, 14, 30, 45⟩ (fun _ => true) (fun _ => true) (fun _ => true)
    (by decide)
  simpa using h.1

/-- Claim C10: the display validation checks only the numeric range,
so a non-integral display number d with 1 ≤ d ≤ count passes the
range check, matches no monitor index, and the code then performs a
full virtual-desktop capture (the trace contains the whole-desktop
tool invocation) before the undefined-property dereference aborts
the run with exit code 1 and no output file — unlike the
out-of-range case, which fails before any capture. -/
theorem c10_nonintegral_display (d : ℚ) (format : String) (monitors : List Monitor)
    (ts : Timestamp) (capOk fileOk : Option Nat → Bool) (convOk : String → Bool)
    (hden : d.den ≠ 1) (h1 : 1 ≤ d) (h2 : d ≤ (monitors.length : ℚ))
    (hcap : capOk none = true) (hfile : fileOk none = true) :
    (mainRun (some d) format monitors ts capOk fileOk convOk).1 = 1 ∧
    Event.exec none ∈ (mainRun (some d) format monitors ts capOk fileOk convOk).2 ∧
    outputsOf (mainRun (some d) format monitors ts capOk fileOk convOk).2 = [] := by
  have hcond : ¬(d < 1 ∨ (monitors.length : ℚ) < d) := by
    push_neg
    exact ⟨h1, h2⟩
  have hfind : monitors.find? (fun m => decide ((m.index : ℚ) = d)) = none := by
    apply List.find?_eq_none.mpr
    intro m hm
    simp only [decide_eq_true_eq]
    intro he
    exact hden (by rw [← he]; exact Rat.den_natCast m.index)
  have hct := captureTarget_ok capOk fileOk none (by simpa using hcap)
    (by simpa using hfile) (by intro m hm; cases hm)
  refine ⟨?_, ?_, ?_⟩ <;>
    simp [mainRun, if_neg hcond, hfind, hct, outputsOf]

/-- Witness for C10: display 3/2 with two enumerated monitors. -/
theorem c10_nonintegral_display_witness :
    (mainRun (some ((3 : ℚ) / 2)) "png" [⟨1, 0, 0, 10, 10⟩, ⟨2, 10, 0, 10, 10⟩]
      ⟨2024, 1, 20, 14, 30, 45⟩ (fun _ => true) (fun _ => true) (fun _ => true)).1 = 1 ∧
    Event.exec none ∈ (mainRun (some ((3 : ℚ) / 2)) "png"
      [⟨1, 0, 0, 10, 10⟩, ⟨2, 10, 0, 10, 10⟩]
      ⟨2024, 1, 20, 14, 30, 45⟩ (fun _ => true) (fun _ => true) (fun _ => true)).2 := by
  have h := c10_nonintegral_display ((3 : ℚ) / 2) "png"
    [⟨1, 0, 0, 10, 10⟩, ⟨2, 10, 0, 10, 10⟩] ⟨2024, 1, 20, 14, 30, 45⟩
    (fun _ => true) (fun _ => true) (fun _ => true)
    (by norm_num) (by norm_num) (by norm_num) rfl rfl
  exact ⟨h.1, h.2.1⟩

/-- Claim C2: in all-displays mode, when the whole-desktop capture
and its placement succeed, the run exits with code 0 no matter which
individual monitors fail; the whole-desktop output is present, every
monitor whose capture and conversion succeed gets its DisplayImage
output, and every failing monitor (capture or conversion failure) is
logged without aborting the rest. -/
theorem c2_partial_failure (format : String) (monitors : List Monitor) (ts : Timestamp)
    (capOk fileOk : Option Nat → Bool) (convOk : String → Bool)
    (hcap : capOk none = true) (hfile : fileOk none = true)
    (hconv : format = "png" ∨ convOk (desktopName format ts) = true) :
    (mainRun none format monitors ts capOk fileOk convOk).1 = 0 ∧
    desktopName format ts ∈
      outputsOf (mainRun none format monitors ts capOk fileOk convOk).2 ∧
    (∀ m ∈ monitors, monSucceeds format ts capOk fileOk convOk m →
      displayName m format ts ∈
        outputsOf (mainRun none format monitors ts capOk fileOk convOk).2) ∧
    (∀ m ∈ monitors, ¬ monSucceeds format ts capOk fileOk convOk m →
      ∃ e, Event.log ("✗ Failed to capture display " ++ toString m.index ++ ": " ++ e) ∈
        (mainRun none format monitors ts capOk fileOk convOk).2) := by
  have hct := captureTarget_ok capOk fileOk none (by simpa using hcap)
    (by simpa using hfile) (by intro m hm; cases hm)
  by_cases hfmt : format = "png"
  · subst hfmt
    refine ⟨?_, ?_, ?_, ?_⟩
    · simp [mainRun, hct, placeOutput]
    · simp [mainRun, hct, placeOutput, outputsOf_append, outputsOf]
    · intro m hm hs
      have := loop_out_mem "png" ts capOk fileOk convOk monitors m hm hs
      simp [mainRun, hct, placeOutput, outputsOf_append, outputsOf, this]
    · intro m hm hs
      obtain ⟨e, he⟩ := loop_fail_log "png" ts capOk fileOk convOk monitors m hm hs
      exact ⟨e, by simp [mainRun, hct, placeOutput, he]⟩
  · have hcv : convOk (desktopName format ts) = true := hconv.resolve_left hfmt
    refine ⟨?_, ?_, ?_, ?_⟩
    · simp [mainRun, hct, placeOutput, hfmt, hcv]
    · simp [mainRun, hct, placeOutput, hfmt, hcv, outputsOf_append, outputsOf]
    · intro m hm hs
      have := loop_out_mem format ts capOk fileOk convOk monitors m hm hs
      simp [mainRun, hct, placeOutput, hfmt, hcv, outputsOf_append, outputsOf, this]
    · intro m hm hs
      obtain ⟨e, he⟩ := loop_fail_log format ts capOk fileOk convOk monitors m hm hs
      exact ⟨e, by simp [mainRun, hct, placeOutput, hfmt, hcv, he]⟩

/-- Witness for C2: two monitors, capture of display 2 fails, the run
exits 0 with the desktop and display 1 outputs present and a logged
failure for display 2. -/
theorem c2_partial_failure_witness :
    (mainRun none "png" [⟨1, 0, 0, 10, 10⟩, ⟨2, 10, 0, 10, 10⟩]
      ⟨2024, 1, 20, 14, 30, 45⟩ (fun t => !(t == some 2)) (fun _ => true)
      (fun _ => true)).1 = 0 ∧
    "DesktopImage_2024-01-20_14-30-45.png" ∈
      outputsOf (mainRun none "png" [⟨1, 0, 0, 10, 10⟩, ⟨2, 10, 0, 10, 10⟩]
        ⟨2024, 1, 20, 14, 30, 45⟩ (fun t => !(t == some 2)) (fun _ => true)
        (fun _ => true)).2 ∧
    "DisplayImage1_2024-01-20_14-30-45.png" ∈
      outputsOf (mainRun none "png" [⟨1, 0, 0, 10, 10⟩, ⟨2, 10, 0, 10, 10⟩]
        ⟨2024, 1, 20, 14, 30, 45⟩ (fun t => !(t == some 2)) (fun _ => true)
        (fun _ => true)).2 ∧
    (∃ e, Event.log ("✗ Failed to capture display 2: " ++ e) ∈
      (mainRun none "png" [⟨1, 0, 0, 10, 10⟩, ⟨2, 10, 0, 10, 10⟩]
        ⟨2024, 1, 20, 14, 30, 45⟩ (fun t => !(t == some 2)) (fun _ => true)
        (fun _ => true)).2) := by
  have h := c2_partial_failure "png" [⟨1, 0, 0, 10, 10⟩, ⟨2, 10, 0, 10, 10⟩]
    ⟨2024, 1, 20, 14, 30, 45⟩ (fun t => !(t == some 2)) (fun _ => true) (fun _ => true)
    rfl rfl (Or.inl rfl)
  refine ⟨h.1, ?_, ?_, ?_⟩
  · simpa [desktopName, generateFilename, pad2, padStart2] using h.2.1
  · have := h.2.2.1 ⟨1, 0, 0, 10, 10⟩ (by simp)
      (by exact ⟨rfl, rfl, by decide, by decide, Or.inl rfl⟩)
    simpa [displayName, generateFilename, pad2, padStart2] using this
  · have := h.2.2.2 ⟨2, 10, 0, 10, 10⟩ (by simp)
      (by intro hc; exact absurd hc.1 (by decide))
    simpa using this

theorem copiesOf_placeOutput_nonpng (format src dst : String) (c : Bool)
    (hfmt : format ≠ "png") :
    copiesOf (placeOutput format src dst c).2 = [] := by
  cases c
  · simp [placeOutput_conv_fail format src dst hfmt, copiesOf]
  · simp [placeOutput_conv_ok format src dst hfmt, copiesOf]

theorem out_has_convert_placeOutput (format src dst : String) (c : Bool)
    (hfmt : format ≠ "png") :
    ∀ f ∈ outputsOf (placeOutput format src dst c).2,
      (src, f) ∈ convertsOf (placeOutput format src dst c).2 := by
  cases c
  · simp [placeOutput_conv_fail format src dst hfmt, outputsOf]
  · simp [placeOutput_conv_ok format src dst hfmt, outputsOf, convertsOf]

theorem outputs_mainRun_sub (display : Option ℚ) (format : String) (monitors : List Monitor)
    (ts : Timestamp) (capOk fileOk : Option Nat → Bool) (convOk : String → Bool) :
    ∀ f ∈ outputsOf (mainRun display format monitors ts capOk fileOk convOk).2,
      f = desktopName format ts ∨ ∃ m ∈ monitors, f = displayName m format ts := by
  intro f hf
  cases display with
  | none =>
    cases hcap : capOk none with
    | false =>
      have hct := captureTarget_err_exec capOk fileOk none (by simpa using hcap)
        (by intro m hm; cases hm)
      simp [mainRun, hct, outputsOf_append, outputsOf] at hf
    | true =>
      cases hfile : fileOk none with
      | false =>
        have hct := captureTarget_err_file capOk fileOk none (by simpa using hcap)
          (by simpa using hfile) (by intro m hm; cases hm)
        simp [mainRun, hct, outputsOf_append, outputsOf] at hf
      | true =>
        have hct := captureTarget_ok capOk fileOk none (by simpa using hcap)
          (by simpa using hfile) (by intro m hm; cases hm)
        by_cases hfmt : format = "png"
        · subst hfmt
          simp [mainRun, hct, placeOutput_png, outputsOf_append, outputsOf] at hf
          rcases hf with hf | hf
          · exact Or.inl hf
          · obtain ⟨m, hm, he⟩ := outputs_loop_sub "png" ts capOk fileOk convOk monitors f hf
            exact Or.inr ⟨m, hm, he⟩
        · cases hcv : convOk (desktopName format ts) with
          | false =>
            simp [mainRun, hct, hcv, placeOutput_conv_fail format _ _ hfmt, outputsOf_append,
              outputsOf] at hf
          | true =>
            simp [mainRun, hct, hcv, placeOutput_conv_ok format _ _ hfmt, outputsOf_append,
              outputsOf] at hf
            rcases hf with hf | hf
            · exact Or.inl hf
            · obtain ⟨m, hm, he⟩ := outputs_loop_sub format ts capOk fileOk convOk monitors f hf
              exact Or.inr ⟨m, hm, he⟩
  | some d =>
    by_cases hcond : d < 1 ∨ (monitors.length : ℚ) < d
    · simp [mainRun, if_pos hcond, outputsOf] at hf
    · cases hfind : monitors.find? (fun m => decide ((m.index : ℚ) = d)) with
      | none =>
        cases hcap : capOk none with
        | false =>
          have hct := captureTarget_err_exec capOk fileOk none (by simpa using hcap)
            (by intro m hm; cases hm)
          simp [mainRun, if_neg hcond, hfind, hct, outputsOf_append, outputsOf] at hf
        | true =>
          cases hfile : fileOk none with
          | false =>
            have hct := captureTarget_err_file capOk fileOk none (by simpa using hcap)
              (by simpa using hfile) (by intro m hm; cases hm)
            simp [mainRun, if_neg hcond, hfind, hct, outputsOf_append, outputsOf] at hf
          | true =>
            have hct := captureTarget_ok capOk fileOk none (by simpa using hcap)
              (by simpa using hfile) (by intro m hm; cases hm)
            simp [mainRun, if_neg hcond, hfind, hct, outputsOf_append, outputsOf] at hf
      | some m =>
        have hmem : m ∈ monitors := List.mem_of_find?_eq_some hfind
        by_cases hd : m.width ≤ 0 ∨ m.height ≤ 0
        · have hct := captureTarget_err_dims capOk fileOk m hd
          simp [mainRun, if_neg hcond, hfind, hct, outputsOf_append, outputsOf] at hf
        · cases hcap : capOk (some m.index) with
          | false =>
            have hct := captureTarget_err_exec capOk fileOk (some m) (by simpa using hcap)
              (by intro m' hm'; cases hm'; constructor <;> omega)
            simp [mainRun, if_neg hcond, hfind, hct, outputsOf_append, outputsOf] at hf
          | true =>
            cases hfile : fileOk (some m.index) with
            | false =>
              have hct := captureTarget_err_file capOk fileOk (some m) (by simpa using hcap)
                (by simpa using hfile) (by intro m' hm'; cases hm'; constructor <;> omega)
              simp [mainRun, if_neg hcond, hfind, hct, outputsOf_append, outputsOf] at hf
            | true =>
              have hct := captureTarget_ok capOk fileOk (some m) (by simpa using hcap)
                (by simpa using hfile) (by intro m' hm'; cases hm'; constructor <;> omega)
              by_cases hfmt : format = "png"
              · subst hfmt
                simp [mainRun, if_neg hcond, hfind, hct, placeOutput_png,
                  outputsOf_append, outputsOf] at hf
                exact Or.inr ⟨m, hmem, hf⟩
              · cases hcv : convOk (displayName m format ts) with
                | false =>
                  simp [mainRun, if_neg hcond, hfind, hct, hcv,
                    placeOutput_conv_fail format _ _ hfmt, outputsOf_append, outputsOf] at hf
                | true =>
                  simp [mainRun, if_neg hcond, hfind, hct, hcv,
                    placeOutput_conv_ok format _ _ hfmt, outputsOf_append, outputsOf] at hf
                  exact Or.inr ⟨m, hmem, hf⟩

/-- Claim C7: every produced output filename has the exact shape
prefix, underscore, year, dash, two-digit month, dash, two-digit
day, underscore, two-digit hours, dash, two-digit minutes, dash,
two-digit seconds, dot, format — a pure function of (prefix,
timestamp, format) — where the prefix is DesktopImage or
DisplayImage followed by a monitor index, and all outputs of one
invocation use the single timestamp computed once at start (the
month, day, hours, minutes and seconds renderings have length two
whenever the component is below 100, which covers all calendar
values). -/
theorem c7_filename_contract :
    (∀ n < 100, (pad2 n).length = 2) ∧
    (∀ (display : Option ℚ) (format : String) (monitors : List Monitor) (ts : Timestamp)
      (capOk fileOk : Option Nat → Bool) (convOk : String → Bool),
      ∀ f ∈ outputsOf (mainRun display format monitors ts capOk fileOk convOk).2,
      ∃ p, (p = "DesktopImage" ∨ ∃ m ∈ monitors, p = "DisplayImage" ++ toString m.index) ∧
        f = p ++ "_" ++ toString ts.year ++ "-" ++ pad2 ts.month ++ "-" ++ pad2 ts.day ++
          "_" ++ pad2 ts.hours ++ "-" ++ pad2 ts.minutes ++ "-" ++ pad2 ts.seconds ++
          "." ++ format) := by
  constructor
  · decide
  · intro display format monitors ts capOk fileOk convOk f hf
    rcases outputs_mainRun_sub display format monitors ts capOk fileOk convOk f hf with
      hf | ⟨m, hm, hf⟩
    · exact ⟨"DesktopImage", Or.inl rfl, by rw [hf]; rfl⟩
    · exact ⟨"DisplayImage" ++ toString m.index, Or.inr ⟨m, hm, rfl⟩, by rw [hf]; rfl⟩

/-- Witness for C7: the output of a concrete single-display run. -/
theorem c7_filename_contract_witness :
    (pad2 7).length = 2 ∧
    (∃ p, (p = "DesktopImage" ∨ ∃ m ∈ [(⟨1, 0, 0, 10, 10⟩ : Monitor)],
        p = "DisplayImage" ++ toString m.index) ∧
      "DisplayImage1_2024-01-20_14-30-45.png" =
        p ++ "_" ++ toString (2024 : Nat) ++ "-" ++ pad2 1 ++ "-" ++ pad2 20 ++
        "_" ++ pad2 14 ++ "-" ++ pad2 30 ++ "-" ++ pad2 45 ++ "." ++ "png") := by
  constructor
  · exact c7_filename_contract.1 7 (by decide)
  · exact c7_filename_contract.2 (some 1) "png" [⟨1, 0, 0, 10, 10⟩]
      ⟨2024, 1, 20, 14, 30, 45⟩ (fun _ => true) (fun _ => true) (fun _ => true)
      "DisplayImage1_2024-01-20_14-30-45.png" (by decide)

theorem convertsOf_mainRun_png (display : Option ℚ) (monitors : List Monitor) (ts : Timestamp)
    (capOk fileOk : Option Nat → Bool) (convOk : String → Bool) :
    convertsOf (mainRun display "png" monitors ts capOk fileOk convOk).2 = [] := by
  cases display with
  | none =>
    cases hcap : capOk none with
    | false =>
      have hct := captureTarget_err_exec capOk fileOk none (by simpa using hcap)
        (by intro m hm; cases hm)
      simp [mainRun, hct, convertsOf_append, convertsOf]
    | true =>
      cases hfile : fileOk none with
      | false =>
        have hct := captureTarget_err_file capOk fileOk none (by simpa using hcap)
          (by simpa using hfile) (by intro m hm; cases hm)
        simp [mainRun, hct, convertsOf_append, convertsOf]
      | true =>
        have hct := captureTarget_ok capOk fileOk none (by simpa using hcap)
          (by simpa using hfile) (by intro m hm; cases hm)
        simp [mainRun, hct, placeOutput_png, convertsOf_append, convertsOf,
          convertsOf_loop_png]
  | some d =>
    by_cases hcond : d < 1 ∨ (monitors.length : ℚ) < d
    · simp [mainRun, if_pos hcond, convertsOf]
    · cases hfind : monitors.find? (fun m => decide ((m.index : ℚ) = d)) with
      | none =>
        cases hcap : capOk none with
        | false =>
          have hct := captureTarget_err_exec capOk fileOk none (by simpa using hcap)
            (by intro m hm; cases hm)
          simp [mainRun, if_neg hcond, hfind, hct, convertsOf_append, convertsOf]
        | true =>
          cases hfile : fileOk none with
          | false =>
            have hct := captureTarget_err_file capOk fileOk none (by simpa using hcap)
              (by simpa using hfile) (by intro m hm; cases hm)
            simp [mainRun, if_neg hcond, hfind, hct, convertsOf_append, convertsOf]
          | true =>
            have hct := captureTarget_ok capOk fileOk none (by simpa using hcap)
              (by simpa using hfile) (by intro m hm; cases hm)
            simp [mainRun, if_neg hcond, hfind, hct, convertsOf_append, convertsOf]
      | some m =>
        by_cases hd : m.width ≤ 0 ∨ m.height ≤ 0
        · have hct := captureTarget_err_dims capOk fileOk m hd
          simp [mainRun, if_neg hcond, hfind, hct, convertsOf_append, convertsOf]
        · cases hcap : capOk (some m.index) with
          | false =>
            have hct := captureTarget_err_exec capOk fileOk (some m) (by simpa using hcap)
              (by intro m' hm'; cases hm'; constructor <;> omega)
            simp [mainRun, if_neg hcond, hfind, hct, convertsOf_append, convertsOf]
          | true =>
            cases hfile : fileOk (some m.index) with
            | false =>
              have hct := captureTarget_err_file capOk fileOk (some m) (by simpa using hcap)
                (by simpa using hfile) (by intro m' hm'; cases hm'; constructor <;> omega)
              simp [mainRun, if_neg hcond, hfind, hct, convertsOf_append, convertsOf]
            | true =>
              have hct := captureTarget_ok capOk fileOk (some m) (by simpa using hcap)
                (by simpa using hfile) (by intro m' hm'; cases hm'; constructor <;> omega)
              simp [mainRun, if_neg hcond, hfind, hct, placeOutput_png,
                convertsOf_append, convertsOf]

theorem out_has_copy_mainRun_png (display : Option ℚ) (monitors : List Monitor)
    (ts : Timestamp) (capOk fileOk : Option Nat → Bool) (convOk : String → Bool) :
    ∀ f ∈ outputsOf (mainRun display "png" monitors ts capOk fileOk convOk).2,
      ∃ s, (s, f) ∈ copiesOf (mainRun display "png" monitors ts capOk fileOk convOk).2 := by
  intro f hf
  cases display with
  | none =>
    cases hcap : capOk none with
    | false =>
      have hct := captureTarget_err_exec capOk fileOk none (by simpa using hcap)
        (by intro m hm; cases hm)
      simp [mainRun, hct, outputsOf_append, outputsOf] at hf
    | true =>
      cases hfile : fileOk none with
      | false =>
        have hct := captureTarget_err_file capOk fileOk none (by simpa using hcap)
          (by simpa using hfile) (by intro m hm; cases hm)
        simp [mainRun, hct, outputsOf_append, outputsOf] at hf
      | true =>
        have hct := captureTarget_ok capOk fileOk none (by simpa using hcap)
          (by simpa using hfile) (by intro m hm; cases hm)
        simp [mainRun, hct, placeOutput_png, outputsOf_append, outputsOf] at hf
        rcases hf with hf | hf
        · refine ⟨tempName none, ?_⟩
          simp [mainRun, hct, placeOutput_png, copiesOf_append, copiesOf, hf]
        · obtain ⟨s, hs⟩ := out_has_copy_loop ts capOk fileOk convOk monitors f hf
          refine ⟨s, ?_⟩
          simp [mainRun, hct, placeOutput_png, copiesOf_append, copiesOf, hs]
  | some d =>
    by_cases hcond : d < 1 ∨ (monitors.length : ℚ) < d
    · simp [mainRun, if_pos hcond, outputsOf] at hf
    · cases hfind : monitors.find? (fun m => decide ((m.index : ℚ) = d)) with
      | none =>
        cases hcap : capOk none with
        | false =>
          have hct := captureTarget_err_exec capOk fileOk none (by simpa using hcap)
            (by intro m hm; cases hm)
          simp [mainRun, if_neg hcond, hfind, hct, outputsOf_append, outputsOf] at hf
        | true =>
          cases hfile : fileOk none with
          | false =>
            have hct := captureTarget_err_file capOk fileOk none (by simpa using hcap)
              (by simpa using hfile) (by intro m hm; cases hm)
            simp [mainRun, if_neg hcond, hfind, hct, outputsOf_append, outputsOf] at hf
          | true =>
            have hct := captureTarget_ok capOk fileOk none (by simpa using hcap)
              (by simpa using hfile) (by intro m hm; cases hm)
            simp [mainRun, if_neg hcond, hfind, hct, outputsOf_append, outputsOf] at hf
      | some m =>
        by_cases hd : m.width ≤ 0 ∨ m.height ≤ 0
        · have hct := captureTarget_err_dims capOk fileOk m hd
          simp [mainRun, if_neg hcond, hfind, hct, outputsOf_append, outputsOf] at hf
        · cases hcap : capOk (some m.index) with
          | false =>
            have hct := captureTarget_err_exec capOk fileOk (some m) (by simpa using hcap)
              (by intro m' hm'; cases hm'; constructor <;> omega)
            simp [mainRun, if_neg hcond, hfind, hct, outputsOf_append, outputsOf] at hf
          | true =>
            cases hfile : fileOk (some m.index) with
            | false =>
              have hct := captureTarget_err_file capOk fileOk (some m) (by simpa using hcap)
                (by simpa using hfile) (by intro m' hm'; cases hm'; constructor <;> omega)
              simp [mainRun, if_neg hcond, hfind, hct, outputsOf_append, outputsOf] at hf
            | true =>
              have hct := captureTarget_ok capOk fileOk (some m) (by simpa using hcap)
                (by simpa using hfile) (by intro m' hm'; cases hm'; constructor <;> omega)
              simp [mainRun, if_neg hcond, hfind, hct, placeOutput_png,
                outputsOf_append, outputsOf] at hf
              refine ⟨tempName (some m), ?_⟩
              simp [mainRun, if_neg hcond, hfind, hct, placeOutput_png,
                copiesOf_append, copiesOf, hf]

theorem copiesOf_mainRun_nonpng (display : Option ℚ) (format : String)
    (monitors : List Monitor) (ts : Timestamp) (capOk fileOk : Option Nat → Bool)
    (convOk : String → Bool) (hfmt : format ≠ "png") :
    copiesOf (mainRun display format monitors ts capOk fileOk convOk).2 = [] := by
  cases display with
  | none =>
    cases hcap : capOk none with
    | false =>
      have hct := captureTarget_err_exec capOk fileOk none (by simpa using hcap)
        (by intro m hm; cases hm)
      simp [mainRun, hct, copiesOf_append, copiesOf]
    | true =>
      cases hfile : fileOk none with
      | false =>
        have hct := captureTarget_err_file capOk fileOk none (by simpa using hcap)
          (by simpa using hfile) (by intro m hm; cases hm)
        simp [mainRun, hct, copiesOf_append, copiesOf]
      | true =>
        have hct := captureTarget_ok capOk fileOk none (by simpa using hcap)
          (by simpa using hfile) (by intro m hm; cases hm)
        cases hcv : convOk (desktopName format ts) with
        | false =>
          simp [mainRun, hct, hcv, placeOutput_conv_fail format _ _ hfmt,
            copiesOf_append, copiesOf]
        | true =>
          simp [mainRun, hct, hcv, placeOutput_conv_ok format _ _ hfmt,
            copiesOf_append, copiesOf, copiesOf_loop_nonpng format ts capOk fileOk convOk
              monitors hfmt]
  | some d =>
    by_cases hcond : d < 1 ∨ (monitors.length : ℚ) < d
    · simp [mainRun, if_pos hcond, copiesOf]
    · cases hfind : monitors.find? (fun m => decide ((m.index : ℚ) = d)) with
      | none =>
        cases hcap : capOk none with
        | false =>
          have hct := captureTarget_err_exec capOk fileOk none (by simpa using hcap)
            (by intro m hm; cases hm)
          simp [mainRun, if_neg hcond, hfind, hct, copiesOf_append, copiesOf]
        | true =>
          cases hfile : fileOk none with
          | false =>
            have hct := captureTarget_err_file capOk fileOk none (by simpa using hcap)
              (by simpa using hfile) (by intro m hm; cases hm)
            simp [mainRun, if_neg hcond, hfind, hct, copiesOf_append, copiesOf]
          | true =>
            have hct := captureTarget_ok capOk fileOk none (by simpa using hcap)
              (by simpa using hfile) (by intro m hm; cases hm)
            simp [mainRun, if_neg hcond, hfind, hct, copiesOf_append, copiesOf]
      | some m =>
        by_cases hd : m.width ≤ 0 ∨ m.height ≤ 0
        · have hct := captureTarget_err_dims capOk fileOk m hd
          simp [mainRun, if_neg hcond, hfind, hct, copiesOf_append, copiesOf]
        · cases hcap : capOk (some m.index) with
          | false =>
            have hct := captureTarget_err_exec capOk fileOk (some m) (by simpa using hcap)
              (by intro m' hm'; cases hm'; constructor <;> omega)
            simp [mainRun, if_neg hcond, hfind, hct, copiesOf_append, copiesOf]
          | true =>
            cases hfile : fileOk (some m.index) with
            | false =>
              have hct := captureTarget_err_file capOk fileOk (some m) (by simpa using hcap)
                (by simpa using hfile) (by intro m' hm'; cases hm'; constructor <;> omega)
              simp [mainRun, if_neg hcond, hfind, hct, copiesOf_append, copiesOf]
            | true =>
              have hct := captureTarget_ok capOk fileOk (some m) (by simpa using hcap)
                (by simpa using hfile) (by intro m' hm'; cases hm'; constructor <;> omega)
              cases hcv : convOk (displayName m format ts) with
              | false =>
                simp [mainRun, if_neg hcond, hfind, hct, hcv,
                  placeOutput_conv_fail format _ _ hfmt, copiesOf_append, copiesOf]
              | true =>
                simp [mainRun, if_neg hcond, hfind, hct, hcv,
                  placeOutput_conv_ok format _ _ hfmt, copiesOf_append, copiesOf]

theorem out_has_convert_mainRun_nonpng (display : Option ℚ) (format : String)
    (monitors : List Monitor) (ts : Timestamp) (capOk fileOk : Option Nat → Bool)
    (convOk : String → Bool) (hfmt : format ≠ "png") :
    ∀ f ∈ outputsOf (mainRun display format monitors ts capOk fileOk convOk).2,
      ∃ s, (s, f) ∈ convertsOf (mainRun display format monitors ts capOk fileOk convOk).2 := by
  intro f hf
  cases display with
  | none =>
    cases hcap : capOk none with
    | false =>
      have hct := captureTarget_err_exec capOk fileOk none (by simpa using hcap)
        (by intro m hm; cases hm)
      simp [mainRun, hct, outputsOf_append, outputsOf] at hf
    | true =>
      cases hfile : fileOk none with
      | false =>
        have hct := captureTarget_err_file capOk fileOk none (by simpa using hcap)
          (by simpa using hfile) (by intro m hm; cases hm)
        simp [mainRun, hct, outputsOf_append, outputsOf] at hf
      | true =>
        have hct := captureTarget_ok capOk fileOk none (by simpa using hcap)
          (by simpa using hfile) (by intro m hm; cases hm)
        cases hcv : convOk (desktopName format ts) with
        | false =>
          simp [mainRun, hct, hcv, placeOutput_conv_fail format _ _ hfmt,
            outputsOf_append, outputsOf] at hf
        | true =>
          simp [mainRun, hct, hcv, placeOutput_conv_ok format _ _ hfmt,
            outputsOf_append, outputsOf] at hf
          rcases hf with hf | hf
          · refine ⟨tempName none, ?_⟩
            simp [mainRun, hct, hcv, placeOutput_conv_ok format _ _ hfmt,
              convertsOf_append, convertsOf, hf]
          · obtain ⟨s, hs⟩ := out_has_convert_loop format ts capOk fileOk convOk monitors
              hfmt f hf
            refine ⟨s, ?_⟩
            simp [mainRun, hct, hcv, placeOutput_conv_ok format _ _ hfmt,
              convertsOf_append, convertsOf, hs]
  | some d =>
    by_cases hcond : d < 1 ∨ (monitors.length : ℚ) < d
    · simp [mainRun, if_pos hcond, outputsOf] at hf
    · cases hfind : monitors.find? (fun m => decide ((m.index : ℚ) = d)) with
      | none =>
        cases hcap : capOk none with
        | false =>
          have hct := captureTarget_err_exec capOk fileOk none (by simpa using hcap)
            (by intro m hm; cases hm)
          simp [mainRun, if_neg hcond, hfind, hct, outputsOf_append, outputsOf] at hf
        | true =>
          cases hfile : fileOk none with
          | false =>
            have hct := captureTarget_err_file capOk fileOk none (by simpa using hcap)
              (by simpa using hfile) (by intro m hm; cases hm)
            simp [mainRun, if_neg hcond, hfind, hct, outputsOf_append, outputsOf] at hf
          | true =>
            have hct := captureTarget_ok capOk fileOk none (by simpa using hcap)
              (by simpa using hfile) (by intro m hm; cases hm)
            simp [mainRun, if_neg hcond, hfind, hct, outputsOf_append, outputsOf] at hf
      | some m =>
        by_cases hd : m.width ≤ 0 ∨ m.height ≤ 0
        · have hct := captureTarget_err_dims capOk fileOk m hd
          simp [mainRun, if_neg hcond, hfind, hct, outputsOf_append, outputsOf] at hf
        · cases hcap : capOk (some m.index) with
          | false =>
            have hct := captureTarget_err_exec capOk fileOk (some m) (by simpa using hcap)
              (by intro m' hm'; cases hm'; constructor <;> omega)
            simp [mainRun, if_neg hcond, hfind, hct, outputsOf_append, outputsOf] at hf
          | true =>
            cases hfile : fileOk (some m.index) with
            | false =>
              have hct := captureTarget_err_file capOk fileOk (some m) (by simpa using hcap)
                (by simpa using hfile) (by intro m' hm'; cases hm'; constructor <;> omega)
              simp [mainRun, if_neg hcond, hfind, hct, outputsOf_append, outputsOf] at hf
            | true =>
              have hct := captureTarget_ok capOk fileOk (some m) (by simpa using hcap)
                (by simpa using hfile) (by intro m' hm'; cases hm'; constructor <;> omega)
              cases hcv : convOk (displayName m format ts) with
              | false =>
                simp [mainRun, if_neg hcond, hfind, hct, hcv,
                  placeOutput_conv_fail format _ _ hfmt, outputsOf_append, outputsOf] at hf
              | true =>
                simp [mainRun, if_neg hcond, hfind, hct, hcv,
                  placeOutput_conv_ok format _ _ hfmt, outputsOf_append, outputsOf] at hf
                refine ⟨tempName (some m), ?_⟩
                simp [mainRun, if_neg hcond, hfind, hct, hcv,
                  placeOutput_conv_ok format _ _ hfmt, convertsOf_append, convertsOf, hf]

theorem convert_invoked_mainRun (format : String) (monitors : List Monitor) (ts : Timestamp)
    (capOk fileOk : Option Nat → Bool) (convOk : String → Bool)
    (hfmt : format ≠ "png") (hcap : ∀ t, capOk t = true) (hfile : ∀ t, fileOk t = true)
    (hcv : convOk (desktopName format ts) = true) :
    ∀ m ∈ monitors, 0 < m.width → 0 < m.height →
      (tempName (some m), displayName m format ts) ∈
        convertsOf (mainRun none format monitors ts capOk fileOk convOk).2 := by
  intro m hm hw hh
  have hct := captureTarget_ok capOk fileOk none (by simp [hcap]) (by simp [hfile])
    (by intro m' hm'; cases hm')
  have hl := convert_invoked_loop format ts capOk fileOk convOk monitors hfmt m hm
    (hcap _) (hfile _) hw hh
  simp [mainRun, hct, hcv, placeOutput_conv_ok format _ _ hfmt, convertsOf_append,
    convertsOf, hl]

/-- Claim C8: with format png the codec is never invoked (the run
trace has no convert events) and every output file is placed by a
direct file copy; with format jpg, jpeg or bmp no direct copy ever
happens, every output file is placed by a codec conversion, and the
codec is invoked for every captured target even when its conversion
then fails. -/
theorem c8_codec_dispatch :
    (∀ (display : Option ℚ) (monitors : List Monitor) (ts : Timestamp)
        (capOk fileOk : Option Nat → Bool) (convOk : String → Bool),
      convertsOf (mainRun display "png" monitors ts capOk fileOk convOk).2 = [] ∧
      ∀ f ∈ outputsOf (mainRun display "png" monitors ts capOk fileOk convOk).2,
        ∃ s, (s, f) ∈ copiesOf (mainRun display "png" monitors ts capOk fileOk convOk).2) ∧
    (∀ (display : Option ℚ) (format : String) (monitors : List Monitor) (ts : Timestamp)
        (capOk fileOk : Option Nat → Bool) (convOk : String → Bool),
      format = "jpg" ∨ format = "jpeg" ∨ format = "bmp" →
      copiesOf (mainRun display format monitors ts capOk fileOk convOk).2 = [] ∧
      ∀ f ∈ outputsOf (mainRun display format monitors ts capOk fileOk convOk).2,
        ∃ s, (s, f) ∈ convertsOf (mainRun display format monitors ts capOk fileOk convOk).2) ∧
    (∀ (format : String) (monitors : List Monitor) (ts : Timestamp)
        (capOk fileOk : Option Nat → Bool) (convOk : String → Bool),
      format = "jpg" ∨ format = "jpeg" ∨ format = "bmp" →
      (∀ t, capOk t = true) → (∀ t, fileOk t = true) →
      convOk (desktopName format ts) = true →
      ∀ m ∈ monitors, 0 < m.width → 0 < m.height →
        (tempName (some m), displayName m format ts) ∈
          convertsOf (mainRun none format monitors ts capOk fileOk convOk).2) := by
  refine ⟨?_, ?_, ?_⟩
  · intro display monitors ts capOk fileOk convOk
    exact ⟨convertsOf_mainRun_png display monitors ts capOk fileOk convOk,
      out_has_copy_mainRun_png display monitors ts capOk fileOk convOk⟩
  · intro display format monitors ts capOk fileOk convOk hfmt
    have hne : format ≠ "png" := by
      rcases hfmt with h | h | h <;> subst h <;> decide
    exact ⟨copiesOf_mainRun_nonpng display format monitors ts capOk fileOk convOk hne,
      out_has_convert_mainRun_nonpng display format monitors ts capOk fileOk convOk hne⟩
  · intro format monitors ts capOk fileOk convOk hfmt hcap hfile hcv
    have hne : format ≠ "png" := by
      rcases hfmt with h | h | h <;> subst h <;> decide
    exact convert_invoked_mainRun format monitors ts capOk fileOk convOk hne hcap hfile hcv

/-- Witness for C8: a concrete png run has no convert events and its
output is placed by copy; a concrete jpg run with a failing codec
still invokes the codec for the captured display. -/
theorem c8_codec_dispatch_witness :
    convertsOf (mainRun none "png" [⟨1, 0, 0, 10, 10⟩] ⟨2024, 1, 20, 14, 30, 45⟩
      (fun _ => true) (fun _ => true) (fun _ => true)).2 = [] ∧
    (∃ s, (s, "DesktopImage_2024-01-20_14-30-45.png") ∈
      copiesOf (mainRun none "png" [⟨1, 0, 0, 10, 10⟩] ⟨2024, 1, 20, 14, 30, 45⟩
        (fun _ => true) (fun _ => true) (fun _ => true)).2) ∧
    copiesOf (mainRun none "jpg" [⟨1, 0, 0, 10, 10⟩] ⟨2024, 1, 20, 14, 30, 45⟩
      (fun _ => true) (fun _ => true)
      (fun s => s == "DesktopImage_2024-01-20_14-30-45.jpg")).2 = [] ∧
    (tempName (some ⟨1, 0, 0, 10, 10⟩), "DisplayImage1_2024-01-20_14-30-45.jpg") ∈
      convertsOf (mainRun none "jpg" [⟨1, 0, 0, 10, 10⟩] ⟨2024, 1, 20, 14, 30, 45⟩
        (fun _ => true) (fun _ => true)
        (fun s => s == "DesktopImage_2024-01-20_14-30-45.jpg")).2 := by
  refine ⟨?_, ?_, ?_, ?_⟩
  · exact (c8_codec_dispatch.1 none [⟨1, 0, 0, 10, 10⟩] ⟨2024, 1, 20, 14, 30, 45⟩
      (fun _ => true) (fun _ => true) (fun _ => true)).1
  · exact (c8_codec_dispatch.1 none [⟨1, 0, 0, 10, 10⟩] ⟨2024, 1, 20, 14, 30, 45⟩
      (fun _ => true) (fun _ => true) (fun _ => true)).2
      "DesktopImage_2024-01-20_14-30-45.png" (by decide)
  · exact (c8_codec_dispatch.2.1 none "jpg" [⟨1, 0, 0, 10, 10⟩] ⟨2024, 1, 20, 14, 30, 45⟩
      (fun _ => true) (fun _ => true)
      (fun s => s == "DesktopImage_2024-01-20_14-30-45.jpg") (Or.inl rfl)).1
  · have h := c8_codec_dispatch.2.2 "jpg" [⟨1, 0, 0, 10, 10⟩] ⟨2024, 1, 20, 14, 30, 45⟩
      (fun _ => true) (fun _ => true)
      (fun s => s == "DesktopImage_2024-01-20_14-30-45.jpg") (Or.inl rfl)
      (fun _ => rfl) (fun _ => rfl) (by decide)
      ⟨1, 0, 0, 10, 10⟩ (by decide) (by decide) (by decide)
    simpa [displayName, generateFilename, pad2, padStart2] using h

theorem leakedTemps_eq_nil {tr : List Event}
    (h : ∀ f ∈ createdTemps tr, f ∈ deletedTemps tr) : leakedTemps tr = [] := by
  unfold leakedTemps
  apply List.filter_eq_nil_iff.mpr
  intro a ha
  simp [h a ha]

/-- Claim C1 counterexample: with format jpg and a codec failure, the
run of `--display 1` captures the screen into a temporary image,
invokes the codec, and aborts — the `fs.unlink` after `convertImage`
is never reached, so the temporary screenshot file is still present
after the run, refuting deletion on every exit path. -/
theorem c1_counterexample :
    leakedTemps (mainRun (some 1) "jpg" [⟨1, 0, 0, 100, 100⟩] ⟨2024, 1, 20, 14, 30, 45⟩
      (fun _ => true) (fun _ => true) (fun _ => false)).2 =
      ["screenshot_display1.png"] := by
  decide

/-- Claim C1, amended: temporary files are deleted on the success
paths — when every external step succeeds (and the requested display
either is absent, is out of range, or matches a monitor) no
temporary file survives the run, and the enumeration script is
deleted whether its execution succeeds or fails — but not on every
exit path: a conversion failure leaks the temporary screenshot
(the unlink after convertImage is unreachable on throw), and a
capture-script execution failure leaks the script file (the unlink
after execAsync is skipped when it throws). -/
theorem c1_amended_cleanup (display : Option ℚ) (format : String) (monitors : List Monitor)
    (ts : Timestamp) (capOk fileOk : Option Nat → Bool) (convOk : String → Bool)
    (hcap : ∀ t, capOk t = true) (hfile : ∀ t, fileOk t = true)
    (hconv : ∀ s, convOk s = true)
    (hres : display = none ∨ ∃ d, display = some d ∧
      (d < 1 ∨ (monitors.length : ℚ) < d ∨ ∃ m ∈ monitors, (m.index : ℚ) = d)) :
    leakedTemps (mainRun display format monitors ts capOk fileOk convOk).2 = [] ∧
    (∀ b, leakedTemps (enumScriptTrace b) = []) := by
  constructor
  · rcases hres with rfl | ⟨d, rfl, hd⟩
    · have hct := captureTarget_ok capOk fileOk none (by simp [hcap]) (by simp [hfile])
        (by intro m hm; cases hm)
      apply leakedTemps_eq_nil
      intro f hf
      by_cases hfmt : format = "png"
      · subst hfmt
        simp [mainRun, hct, placeOutput_png, createdTemps_append, createdTemps] at hf
        simp [mainRun, hct, placeOutput_png, deletedTemps_append, deletedTemps]
        rcases hf with hf | hf | hf
        · simp [hf]
        · simp [hf]
        · exact Or.inr (Or.inr (created_sub_deleted_loop "png" ts capOk fileOk convOk
            monitors hcap hfile hconv f hf))
      · simp [mainRun, hct, hconv _, placeOutput_conv_ok format _ _ hfmt,
          createdTemps_append, createdTemps] at hf
        simp [mainRun, hct, hconv _, placeOutput_conv_ok format _ _ hfmt,
          deletedTemps_append, deletedTemps]
        rcases hf with hf | hf | hf
        · simp [hf]
        · simp [hf]
        · exact Or.inr (Or.inr (created_sub_deleted_loop format ts capOk fileOk convOk
            monitors hcap hfile hconv f hf))
    · by_cases hcond : d < 1 ∨ (monitors.length : ℚ) < d
      · simp [mainRun, if_pos hcond, leakedTemps, createdTemps]
      · have hex : ∃ m ∈ monitors, (m.index : ℚ) = d := by
          rcases hd with h | h | h
          · exact absurd (Or.inl h) hcond
          · exact absurd (Or.inr h) hcond
          · exact h
        have hsome : (monitors.find? (fun m => decide ((m.index : ℚ) = d))).isSome := by
          rw [List.find?_isSome]
          obtain ⟨m, hm, he⟩ := hex
          exact ⟨m, hm, by simp [he]⟩
        obtain ⟨m0, hfind⟩ := Option.isSome_iff_exists.mp hsome
        by_cases hd0 : m0.width ≤ 0 ∨ m0.height ≤ 0
        · have hct := captureTarget_err_dims capOk fileOk m0 hd0
          simp [mainRun, if_neg hcond, hfind, hct, leakedTemps, createdTemps,
            createdTemps_append]
        · have hct := captureTarget_ok capOk fileOk (some m0) (by simp [hcap])
            (by simp [hfile]) (by intro m' hm'; cases hm'; constructor <;> omega)
          apply leakedTemps_eq_nil
          intro f hf
          by_cases hfmt : format = "png"
          · subst hfmt
            simp [mainRun, if_neg hcond, hfind, hct, placeOutput_png,
              createdTemps_append, createdTemps] at hf
            simp [mainRun, if_neg hcond, hfind, hct, placeOutput_png,
              deletedTemps_append, deletedTemps]
            rcases hf with hf | hf <;> simp [hf]
          · simp [mainRun, if_neg hcond, hfind, hct, hconv _,
              placeOutput_conv_ok format _ _ hfmt, createdTemps_append, createdTemps] at hf
            simp [mainRun, if_neg hcond, hfind, hct, hconv _,
              placeOutput_conv_ok format _ _ hfmt, deletedTemps_append, deletedTemps]
            rcases hf with hf | hf <;> simp [hf]
  · intro b
    cases b <;> decide

/-- Witness for C1 amended at a concrete all-success run. -/
theorem c1_amended_cleanup_witness :
    leakedTemps (mainRun none "png" [⟨1, 0, 0, 10, 10⟩] ⟨2024, 1, 20, 14, 30, 45⟩
      (fun _ => true) (fun _ => true) (fun _ => true)).2 = [] ∧
    leakedTemps (enumScriptTrace false) = [] := by
  have h := c1_amended_cleanup none "png" [⟨1, 0, 0, 10, 10⟩] ⟨2024, 1, 20, 14, 30, 45⟩
    (fun _ => true) (fun _ => true) (fun _ => true)
    (fun _ => rfl) (fun _ => rfl) (fun _ => rfl) (Or.inl rfl)
  exact ⟨h.1, h.2 false⟩

theorem reindex_sorted_get {l : List Monitor} (hl : List.Sorted leMon l) (i j : Nat)
    (hi : i < (reindex l).length) (hj : j < (reindex l).length) (hij : i < j) :
    leMon ((reindex l).get ⟨i, hi⟩) ((reindex l).get ⟨j, hj⟩) := by
  have hlen := length_reindex l
  have hi' : i < l.length := by omega
  have hj' : j < l.length := by omega
  have h1 : (reindex l).get ⟨i, hi⟩ = { l.get ⟨i, hi'⟩ with index := 0 + i + 1 } :=
    get_reindexFrom 0 l i hi hi'
  have h2 : (reindex l).get ⟨j, hj⟩ = { l.get ⟨j, hj'⟩ with index := 0 + j + 1 } :=
    get_reindexFrom 0 l j hj hj'
  have hle : leMon (l.get ⟨i, hi'⟩) (l.get ⟨j, hj'⟩) :=
    List.pairwise_iff_get.mp hl ⟨i, hi'⟩ ⟨j, hj'⟩ hij
  rw [h1, h2]
  simpa [leMon] using hle

theorem reindex_index_get (l : List Monitor) (i : Nat) (hi : i < (reindex l).length) :
    ((reindex l).get ⟨i, hi⟩).index = i + 1 := by
  have hlen := length_reindex l
  have hi' : i < l.length := by omega
  have h1 : (reindex l).get ⟨i, hi⟩ = { l.get ⟨i, hi'⟩ with index := 0 + i + 1 } :=
    get_reindexFrom 0 l i hi hi'
  rw [h1]
  simp [Nat.zero_add]

/-- Claim C5: the Windows-family enumeration result is sorted by
(y ascending, then x ascending) — for all positions i strictly below
j the (y, x) keys compare lexicographically — and is re-indexed after
sorting, so the monitor at position i carries index i + 1. -/
theorem c5_win_sorted_reindexed (tuples : List (Int × Int × Int × Int)) :
    (∀ (i j : Nat) (hi : i < (winMonitors tuples).length)
        (hj : j < (winMonitors tuples).length), i < j →
      (((winMonitors tuples).get ⟨i, hi⟩).y < ((winMonitors tuples).get ⟨j, hj⟩).y ∨
        (((winMonitors tuples).get ⟨i, hi⟩).y = ((winMonitors tuples).get ⟨j, hj⟩).y ∧
          ((winMonitors tuples).get ⟨i, hi⟩).x ≤ ((winMonitors tuples).get ⟨j, hj⟩).x))) ∧
    (∀ (i : Nat) (hi : i < (winMonitors tuples).length),
      ((winMonitors tuples).get ⟨i, hi⟩).index = i + 1) := by
  have hsorted : List.Sorted leMon (List.insertionSort leMon
      ((monitorsFromTuples tuples).filter fun m =>
        decide (0 < m.width) && decide (0 < m.height))) :=
    List.sorted_insertionSort leMon _
  constructor
  · intro i j hi hj hij
    exact reindex_sorted_get hsorted i j hi hj hij
  · intro i hi
    exact reindex_index_get _ i hi

/-- Witness for C5 at a concrete unsorted tuple list. -/
theorem c5_win_sorted_reindexed_witness :
    (((winMonitors [(1920, 0, 100, 100), (0, 0, 100, 100)]).get ⟨0, by decide⟩).y <
        ((winMonitors [(1920, 0, 100, 100), (0, 0, 100, 100)]).get ⟨1, by decide⟩).y ∨
      (((winMonitors [(1920, 0, 100, 100), (0, 0, 100, 100)]).get ⟨0, by decide⟩).y =
          ((winMonitors [(1920, 0, 100, 100), (0, 0, 100, 100)]).get ⟨1, by decide⟩).y ∧
        ((winMonitors [(1920, 0, 100, 100), (0, 0, 100, 100)]).get ⟨0, by decide⟩).x ≤
          ((winMonitors [(1920, 0, 100, 100), (0, 0, 100, 100)]).get ⟨1, by decide⟩).x)) ∧
    ((winMonitors [(1920, 0, 100, 100), (0, 0, 100, 100)]).get ⟨0, by decide⟩).index = 1 := by
  constructor
  · exact (c5_win_sorted_reindexed [(1920, 0, 100, 100), (0, 0, 100, 100)]).1 0 1
      (by decide) (by decide) (by decide)
  · exact (c5_win_sorted_reindexed [(1920, 0, 100, 100), (0, 0, 100, 100)]).2 0 (by decide)
